import Mathlib

/-!
# Route gating of the school-management front end

A shallow embedding of the route guards `PrivateRoute` and `PublicRoute`
(`src/routes`), of the path constants they use (`src/constants/routes.js`), of
the routing table (`src/routes/index.jsx`), of the session store
(`src/context/AuthContext.jsx`), of the interceptors of the API client
(`src/services/apiClient.js`), of the sidebar of `UserLayout` and of the
submit handlers of the system-admin login and sign-up pages, followed by the
properties of the gate, of the store and of the pages.

Conventions of the embedding:

* a React component is a function from its props, the value of `useAuth()`
  and `window.location.pathname` to the element it returns;
* a prop left out by the caller is `none`, and the component applies the
  default of its parameter list;
* the user record is the JSON object answered by the server: a field that is
  missing is `none`; a falsy `user` (`null`) is `none`;
* JavaScript strings are compared and searched as character sequences
  (every path constant is ASCII);
* an asynchronous operation is the function from the way its awaited call
  settles and the state at that moment to the state it leaves and the way it
  ends for its caller.
-/

namespace SMS

/-! ## `src/constants/routes.js` -/

namespace ROUTES

def HOME : String := "/"
def LOGIN : String := "/login"
def SYSTEM_ADMIN_LOGIN : String := "/system-admin/login"
def SIGNUP : String := "/signup"
def ABOUT : String := "/about"
def CONTACT : String := "/contact"
def DASHBOARD : String := "/dashboard"
def PROFILE : String := "/profile"
def PROFILE_SETUP : String := "/profile-setup"
def SETTINGS : String := "/settings"
def ADMIN : String := "/admin"
def ADMIN_USERS : String := "/admin/users"
def ADMIN_ORG_PROFILE : String := "/admin/profile"
def ADMIN_SETTINGS : String := "/admin/settings"
def USER_DASHBOARD : String := "/dashboard"
def USER_STUDENTS : String := "/dashboard/students"
def USER_TEACHERS : String := "/dashboard/teachers"
def USER_FACULTIES : String := "/dashboard/faculties"
def USER_COURSES : String := "/dashboard/courses"
def USER_CLASSES : String := "/dashboard/classes"
def USER_BATCHES : String := "/dashboard/batches"
def USER_SECTIONS : String := "/dashboard/sections"
def USER_SUBJECTS : String := "/dashboard/subjects"
def USER_ATTENDANCE : String := "/dashboard/attendance"
def USER_EXAMS : String := "/dashboard/exams"
def USER_TIMETABLE : String := "/dashboard/timetable"
def USER_FEES : String := "/dashboard/fees"
def USER_NOTICES : String := "/dashboard/notices"
def USER_ASSIGNMENTS : String := "/dashboard/assignments"
def USER_ENROLLMENTS : String := "/dashboard/enrollments"
def USER_TEACHER_ASSIGNMENTS : String := "/dashboard/teacher-assignments"
def USER_REPORTS : String := "/dashboard/reports"
def USER_SETTINGS : String := "/dashboard/settings"
def USER_PROFILE : String := "/dashboard/profile"
def UNAUTHORIZED : String := "/unauthorized"
def NOT_FOUND : String := "*"

end ROUTES

/-! ## JavaScript primitives used by the guards -/

/-- The test `str.startsWith(searchString)`. -/
def startsWith (str searchString : String) : Bool :=
  searchString.toList.isPrefixOf str.toList

/-- The expression `value || fallback` for a string field that may be missing:
a missing value and the empty string are falsy. -/
def orDefault (value : Option String) (fallback : String) : String :=
  match value with
  | some s => if s = "" then fallback else s
  | none => fallback

/-- Truthiness of a boolean field that may be missing. -/
def truthy (flag : Option Bool) : Bool :=
  match flag with
  | some b => b
  | none => false

/-! ## Session data (`src/context/AuthContext.jsx`) -/

/-- The user record held by the auth context, with the fields the guards and
the layouts read. -/
structure User where
  email : Option String := none
  role : Option String := none
  approval_status : Option String := none
  is_system_admin : Option Bool := none
  rejection_reason : Option String := none
  deriving DecidableEq, Repr

/-- What `useAuth()` hands to a guard: the `user` and `loading` state cells. -/
structure AuthValue where
  user : Option User
  loading : Bool
  deriving DecidableEq, Repr

/-- The element a guard returns: the inline loading `div` with its text, the
wrapped `children`, or `<Navigate to=... replace />`. -/
inductive Element where
  | placeholder (text : String)
  | children
  | navigate (target : String)
  deriving DecidableEq, Repr

/-! ## `src/routes/PrivateRoute.jsx` -/

/-- Props of `PrivateRoute`; `children` is the wrapped screen. -/
structure PrivateRouteProps where
  redirectTo : Option String := none
  allowedRoles : Option (List String) := none
  deriving DecidableEq, Repr

/-- The constant array `restrictedModules` built inside `PrivateRoute`. -/
def restrictedModules : List String :=
  [ROUTES.USER_FACULTIES, ROUTES.USER_COURSES, ROUTES.USER_CLASSES,
   ROUTES.USER_BATCHES, ROUTES.USER_SECTIONS, ROUTES.USER_SUBJECTS,
   ROUTES.USER_STUDENTS, ROUTES.USER_TEACHERS, ROUTES.USER_ENROLLMENTS,
   ROUTES.USER_TEACHER_ASSIGNMENTS, ROUTES.ADMIN]

/-- The component `PrivateRoute`, statement by statement. `pathname` is
`window.location.pathname` at the time of rendering. An `if` nested in an `if`
without `else` is written as one conjunction, each `return` ends the
evaluation, and the `console.warn` before the last redirect is left out. -/
def PrivateRoute (props : PrivateRouteProps) (auth : AuthValue) (pathname : String) :
    Element :=
  let redirectTo := props.redirectTo.getD ROUTES.LOGIN
  let allowedRoles := props.allowedRoles.getD []
  if auth.loading then
    Element.placeholder "Checking authorization..."
  else
    match auth.user with
    | none => Element.navigate redirectTo
    | some user =>
      let userRole := orDefault user.role "USER"
      let approvalStatus := user.approval_status
      let isSystemAdmin := user.is_system_admin
      if truthy isSystemAdmin then
        Element.children
      else if (approvalStatus == some "PENDING_PROFILE" || approvalStatus == some "REJECTED")
          && pathname != ROUTES.USER_PROFILE then
        Element.navigate ROUTES.USER_PROFILE
      else if (approvalStatus == some "PENDING_APPROVAL" || approvalStatus == some "REJECTED"
            || approvalStatus == some "PENDING_PROFILE")
          && restrictedModules.any (fun route => startsWith pathname route) then
        Element.navigate ROUTES.USER_DASHBOARD
      else if decide (allowedRoles.length > 0) && !allowedRoles.contains userRole then
        Element.navigate "/unauthorized"
      else
        Element.children

/-! ## `src/routes/PublicRoute.jsx` -/

/-- Props of `PublicRoute`. -/
structure PublicRouteProps where
  restricted : Option Bool := none
  redirectTo : Option String := none
  deriving DecidableEq, Repr

/-- The component `PublicRoute`, statement by statement. -/
def PublicRoute (props : PublicRouteProps) (auth : AuthValue) : Element :=
  let restricted := props.restricted.getD false
  let redirectTo := props.redirectTo.getD ROUTES.DASHBOARD
  if auth.loading then
    Element.placeholder "Initializing ProSleek..."
  else
    match restricted, auth.user with
    | true, some user =>
      let target := if truthy user.is_system_admin then ROUTES.ADMIN else redirectTo
      Element.navigate target
    | _, _ => Element.children

/-! ## `src/routes/index.jsx` -/

/-- The guard wrapped around the element of a `<Route>`. -/
inductive Guard where
  | publicRoute (props : PublicRouteProps)
  | privateRoute (props : PrivateRouteProps)
  | unguarded
  deriving DecidableEq, Repr

/-- One `<Route path=... element=... />` of the routing table. -/
structure RouteEntry where
  path : String
  guard : Guard
  deriving DecidableEq, Repr

/-- The routing table of `AppRoutes`, in source order. -/
def AppRoutes : List RouteEntry :=
  [ ⟨ROUTES.HOME, Guard.publicRoute {}⟩,
    ⟨ROUTES.LOGIN, Guard.publicRoute { restricted := some true }⟩,
    ⟨ROUTES.SYSTEM_ADMIN_LOGIN, Guard.publicRoute { restricted := some true }⟩,
    ⟨ROUTES.SIGNUP, Guard.publicRoute { restricted := some true }⟩,
    ⟨"/about", Guard.publicRoute {}⟩,
    ⟨"/contact", Guard.publicRoute {}⟩,
    ⟨ROUTES.USER_DASHBOARD,
      Guard.privateRoute { allowedRoles := some ["USER", "STAFF", "ADMIN", "TEACHER", "ACCOUNTANT"] }⟩,
    ⟨ROUTES.USER_STUDENTS, Guard.privateRoute { allowedRoles := some ["ADMIN", "STAFF", "TEACHER"] }⟩,
    ⟨ROUTES.USER_FACULTIES, Guard.privateRoute { allowedRoles := some ["ADMIN", "STAFF", "TEACHER"] }⟩,
    ⟨ROUTES.USER_COURSES, Guard.privateRoute { allowedRoles := some ["ADMIN", "STAFF", "TEACHER"] }⟩,
    ⟨ROUTES.USER_CLASSES, Guard.privateRoute { allowedRoles := some ["ADMIN", "STAFF", "TEACHER"] }⟩,
    ⟨ROUTES.USER_BATCHES, Guard.privateRoute { allowedRoles := some ["ADMIN", "STAFF", "TEACHER"] }⟩,
    ⟨ROUTES.USER_SECTIONS, Guard.privateRoute { allowedRoles := some ["ADMIN", "STAFF", "TEACHER"] }⟩,
    ⟨ROUTES.USER_SUBJECTS, Guard.privateRoute { allowedRoles := some ["ADMIN", "STAFF", "TEACHER"] }⟩,
    ⟨ROUTES.USER_ENROLLMENTS, Guard.privateRoute { allowedRoles := some ["ADMIN", "STAFF"] }⟩,
    ⟨ROUTES.USER_TEACHER_ASSIGNMENTS, Guard.privateRoute { allowedRoles := some ["ADMIN", "STAFF"] }⟩,
    ⟨ROUTES.USER_PROFILE, Guard.privateRoute {}⟩,
    ⟨ROUTES.USER_SETTINGS, Guard.privateRoute {}⟩,
    ⟨ROUTES.ADMIN, Guard.privateRoute { allowedRoles := some ["ADMIN"] }⟩,
    ⟨ROUTES.ADMIN_USERS, Guard.privateRoute { allowedRoles := some ["ADMIN"] }⟩,
    ⟨ROUTES.ADMIN_ORG_PROFILE, Guard.privateRoute { allowedRoles := some ["ADMIN"] }⟩,
    ⟨"/unauthorized", Guard.unguarded⟩,
    ⟨"*", Guard.unguarded⟩ ]

/-! ## The gate as a decision table -/

/-- The outcome of a guard, without the markup: the loading placeholder, the
screen of the route, or a redirect to a path. -/
inductive Decision where
  | loading
  | render
  | redirect (path : String)
  deriving DecidableEq, Repr

/-- The outcome an element stands for. -/
def Element.decision : Element → Decision
  | Element.placeholder _ => Decision.loading
  | Element.children => Decision.render
  | Element.navigate target => Decision.redirect target

/-- One row of a decision table. -/
structure Rule where
  condition : Bool
  decision : Decision

/-- Evaluation of a decision table: the first row whose condition holds
decides, and `otherwise` decides when no row matches. -/
def firstMatch (rules : List Rule) (otherwise : Decision) : Decision :=
  match rules.find? (fun rule => rule.condition) with
  | some rule => rule.decision
  | none => otherwise

/-- The eleven restricted-while-unapproved paths, spelled out. -/
def restrictedWhileUnapproved : List String :=
  ["/dashboard/faculties", "/dashboard/courses", "/dashboard/classes",
   "/dashboard/batches", "/dashboard/sections", "/dashboard/subjects",
   "/dashboard/students", "/dashboard/teachers", "/dashboard/enrollments",
   "/dashboard/teacher-assignments", "/admin"]

/-- The path starts with one of the restricted-while-unapproved paths. -/
def inRestrictedModule (path : String) : Bool :=
  restrictedWhileUnapproved.any (fun route => startsWith path route)

/-- Membership of the `role` field, as it stands in the record, in
`allowedRoles`: a missing role is a member of no list. -/
def roleFieldIn (identity : User) (allowedRoles : List String) : Bool :=
  match identity.role with
  | some role => allowedRoles.contains role
  | none => false

/-- Membership of the role as the guard reads it: the `role` field, or `USER`
when the field is missing or empty. -/
def effectiveRoleIn (identity : User) (allowedRoles : List String) : Bool :=
  allowedRoles.contains (orDefault identity.role "USER")

/-- The seven rules of the private gate, in order, over a given reading
`isMember` of "the role is a member of allowedRoles" and a given login path. -/
def sevenRules (isMember : User → List String → Bool) (loginPath : String)
    (allowedRoles : List String) (session : AuthValue) (path : String) : Decision :=
  firstMatch
    [ { condition := session.loading,
        decision := Decision.loading },
      { condition := session.user.isNone,
        decision := Decision.redirect loginPath },
      { condition := session.user.any (fun u => u.is_system_admin == some true),
        decision := Decision.render },
      { condition := session.user.any (fun u =>
          (u.approval_status == some "PENDING_PROFILE" || u.approval_status == some "REJECTED")
            && path != "/dashboard/profile"),
        decision := Decision.redirect "/dashboard/profile" },
      { condition := session.user.any (fun u =>
          (u.approval_status == some "PENDING_APPROVAL" || u.approval_status == some "REJECTED"
            || u.approval_status == some "PENDING_PROFILE") && inRestrictedModule path),
        decision := Decision.redirect "/dashboard" },
      { condition := session.user.any (fun u =>
          !allowedRoles.isEmpty && !isMember u allowedRoles),
        decision := Decision.redirect "/unauthorized" } ]
    Decision.render

/-! ## `useAuth` and the guards as rendered (`src/context/AuthContext.jsx`) -/

/-- The hook `useAuth`: the value of the context, or the error it throws when
no `AuthProvider` is above the component (`context` is `none`). -/
def useAuth (context : Option AuthValue) : Except String AuthValue :=
  match context with
  | some value => Except.ok value
  | none => Except.error "useAuth must be used within an AuthProvider"

/-- Rendering of `PrivateRoute` under a context: its first statement reads
`useAuth()`, the rest is `PrivateRoute`. -/
def renderPrivateRoute (context : Option AuthValue) (props : PrivateRouteProps)
    (pathname : String) : Except String Element :=
  match useAuth context with
  | Except.ok auth => Except.ok (PrivateRoute props auth pathname)
  | Except.error thrown => Except.error thrown

/-- Rendering of `PublicRoute` under a context. -/
def renderPublicRoute (context : Option AuthValue) (props : PublicRouteProps) :
    Except String Element :=
  match useAuth context with
  | Except.ok auth => Except.ok (PublicRoute props auth)
  | Except.error thrown => Except.error thrown

/-! ## `src/services/apiClient.js`: the response interceptor -/

/-- The test `str.includes(searchString)`. -/
def includes (str searchString : String) : Bool :=
  str.toList.tails.any (fun rest => searchString.toList.isPrefixOf rest)

/-- The body `error.response.data` of a failed response. -/
structure ErrorPayload where
  error : Option String := none
  message : Option String := none
  deriving DecidableEq, Repr

/-- The part `error.response` of a failed request. -/
structure ErrorResponse where
  status : Nat
  data : Option ErrorPayload := none
  deriving DecidableEq, Repr

/-- The error of a failed request, with the fields the client reads and one
further field (`code`) standing for the rest. -/
structure ApiError where
  response : Option ErrorResponse := none
  message : Option String := none
  code : Option String := none
  deriving DecidableEq, Repr

/-- The browser state the API client reads and writes: the item `auth_token`
of local storage, `window.location.pathname`, and the last value assigned to
`window.location.href` (`none` when nothing was assigned). -/
structure Browser where
  auth_token : Option String
  pathname : String
  href : Option String := none
  deriving DecidableEq, Repr

/-- The rejection handler of the response interceptor: the browser state it
leaves and the error it rejects with. -/
def responseRejected (browser : Browser) (error : ApiError) : Browser × ApiError :=
  let after :=
    match error.response with
    | some response =>
      if response.status = 401 then
        if !includes browser.pathname "/login" then
          { browser with auth_token := none, href := some "/login" }
        else browser
      else browser
    | none => browser
  let payload := error.response.bind (fun response => response.data)
  let message :=
    orDefault (payload.bind (fun data => data.error))
      (orDefault (payload.bind (fun data => data.message))
        (orDefault error.message "Something went wrong"))
  (after, { error with message := some message })

/-! ## The session store (`AuthProvider` in `src/context/AuthContext.jsx`) -/

/-- The state of the store: the two state cells of `AuthProvider` and the item
`auth_token` of local storage. -/
structure SessionState where
  user : Option User
  loading : Bool
  auth_token : Option String
  deriving DecidableEq, Repr

/-- The part of the state that the context hands to the guards. -/
def SessionState.value (state : SessionState) : AuthValue :=
  { user := state.user, loading := state.loading }

/-- The state at mount: `useState(null)`, `useState(true)`, and whatever local
storage holds. -/
def initialState (auth_token : Option String) : SessionState :=
  { user := none, loading := true, auth_token := auth_token }

/-- An endpoint call issued through `apiMethods`. -/
structure Request where
  method : String
  url : String
  deriving DecidableEq, Repr

/-- What an operation of the store leaves behind: the state, the endpoint
calls it issued, and how it ended for its caller (`Except.error` is the error
it throws or rejects with). -/
structure Completed where
  state : SessionState
  requests : List Request
  result : Except ApiError Unit

/-- The operation `checkAuth`. `outcome` is how the awaited `authService.getMe()`
settles: resolved with the response data (`none` for an empty one) or
rejected. `state` is the state when the call settles; the statements after
the `await` run without interruption. -/
def checkAuth (outcome : Except ApiError (Option User)) (state : SessionState) : Completed :=
  match outcome with
  | Except.ok userData =>
    { state := { state with user := userData, loading := false },
      requests := [⟨"GET", "/users/me/"⟩],
      result := Except.ok () }
  | Except.error _ =>
    { state := { state with user := none, loading := false },
      requests := [⟨"GET", "/users/me/"⟩],
      result := Except.ok () }

/-- The operation `login`: `setUser(userData)`. -/
def login (userData : Option User) (state : SessionState) : Completed :=
  { state := { state with user := userData },
    requests := [],
    result := Except.ok () }

/-- The operation `logout`. `outcome` is how the awaited `authService.logout()`
settles. The `finally` block runs in both cases, and without a `catch` the
rejection goes on to the caller. -/
def logout (outcome : Except ApiError Unit) (state : SessionState) : Completed :=
  match outcome with
  | Except.ok _ =>
    { state := { state with auth_token := none, user := none },
      requests := [⟨"POST", "/auth/logout/"⟩],
      result := Except.ok () }
  | Except.error thrown =>
    { state := { state with auth_token := none, user := none },
      requests := [⟨"POST", "/auth/logout/"⟩],
      result := Except.error thrown }

/-- What `handleLogout` of `UserLayout` and `AdminLayout` leaves behind: the
state, the path it navigated to, if any, and how it ended. -/
structure Handled where
  state : SessionState
  navigated : Option String
  result : Except ApiError Unit

/-- The handler `handleLogout`: `await logout()` and `navigate(ROUTES.HOME)`
inside a `try` whose `catch` logs the error. -/
def handleLogout (outcome : Except ApiError Unit) (state : SessionState) : Handled :=
  match (logout outcome state).result with
  | Except.ok _ =>
    { state := (logout outcome state).state, navigated := some ROUTES.HOME,
      result := Except.ok () }
  | Except.error _ =>
    { state := (logout outcome state).state, navigated := none,
      result := Except.ok () }

/-- The completion of one operation of the store. -/
inductive AuthEvent where
  | checkAuth (outcome : Except ApiError (Option User))
  | login (userData : Option User)
  | logout (outcome : Except ApiError Unit)

/-- The event is the completion of a `checkAuth` call. -/
def AuthEvent.isCheckAuth : AuthEvent → Bool
  | AuthEvent.checkAuth _ => true
  | _ => false

/-- The state after one event. -/
def step (state : SessionState) (event : AuthEvent) : SessionState :=
  match event with
  | AuthEvent.checkAuth outcome => (checkAuth outcome state).state
  | AuthEvent.login userData => (login userData state).state
  | AuthEvent.logout outcome => (logout outcome state).state

/-- The state after a sequence of events, oldest first. -/
def run (state : SessionState) (events : List AuthEvent) : SessionState :=
  events.foldl step state

/-! ## `src/constants/routes.js`: route groups and their tests -/

/-- The array `PUBLIC_ROUTES`. -/
def PUBLIC_ROUTES : List String :=
  [ROUTES.HOME, ROUTES.LOGIN, ROUTES.SIGNUP, ROUTES.ABOUT, ROUTES.CONTACT]

/-- The array `USER_ROUTES`. -/
def USER_ROUTES : List String :=
  [ROUTES.USER_DASHBOARD, ROUTES.USER_STUDENTS, ROUTES.USER_TEACHERS, ROUTES.USER_FACULTIES,
   ROUTES.USER_COURSES, ROUTES.USER_CLASSES, ROUTES.USER_BATCHES, ROUTES.USER_SECTIONS,
   ROUTES.USER_SUBJECTS, ROUTES.USER_ATTENDANCE, ROUTES.USER_EXAMS, ROUTES.USER_TIMETABLE,
   ROUTES.USER_FEES, ROUTES.USER_NOTICES, ROUTES.USER_ASSIGNMENTS, ROUTES.USER_ENROLLMENTS,
   ROUTES.USER_TEACHER_ASSIGNMENTS, ROUTES.USER_REPORTS, ROUTES.USER_SETTINGS,
   ROUTES.USER_PROFILE]

/-- The array `ADMIN_ROUTES`. -/
def ADMIN_ROUTES : List String :=
  [ROUTES.ADMIN, ROUTES.ADMIN_USERS, ROUTES.ADMIN_ORG_PROFILE, ROUTES.ADMIN_SETTINGS]

/-- The array bindings that the module `routes.js` declares, by identifier. The
module imports nothing, so an identifier outside this table is declared
nowhere and resolves to `none`. -/
def routeGroup (identifier : String) : Option (List String) :=
  if identifier = "PUBLIC_ROUTES" then some PUBLIC_ROUTES
  else if identifier = "USER_ROUTES" then some USER_ROUTES
  else if identifier = "ADMIN_ROUTES" then some ADMIN_ROUTES
  else none

/-- Evaluation of `IDENTIFIER.includes(path)` in the module: reading an
identifier that is not declared throws a `ReferenceError`. -/
def groupIncludes (identifier path : String) : Except String Bool :=
  match routeGroup identifier with
  | some routes => Except.ok (routes.contains path)
  | none => Except.error ("ReferenceError: " ++ identifier ++ " is not defined")

/-- The function `isPublicRoute`: `PUBLIC_ROUTES.includes(path)`. -/
def isPublicRoute (path : String) : Except String Bool :=
  groupIncludes "PUBLIC_ROUTES" path

/-- The function `isPrivateRoute`: `PRIVATE_ROUTES.includes(path)`. -/
def isPrivateRoute (path : String) : Except String Bool :=
  groupIncludes "PRIVATE_ROUTES" path

/-- The function `isAdminRoute`: `path.startsWith(ROUTES.ADMIN)`. -/
def isAdminRoute (path : String) : Bool :=
  startsWith path ROUTES.ADMIN

/-! ## `src/services/apiClient.js`: the request interceptor -/

/-- The body `config.data` of a request, as far as the interceptor tells bodies
apart: none, a plain value, or a `FormData` object. -/
inductive RequestBody where
  | empty
  | json (text : String)
  | formData (fields : List (String × String))
  deriving DecidableEq, Repr

/-- The test `config.data instanceof FormData`. -/
def RequestBody.isFormData : RequestBody → Bool
  | RequestBody.formData _ => true
  | _ => false

/-- The headers of a request: the two the interceptor writes and the one other
header the client configures. -/
structure RequestHeaders where
  Authorization : Option String := none
  contentType : Option String := some "application/json"
  accept : Option String := some "application/json"
  deriving DecidableEq, Repr

/-- The configuration of an outgoing request. -/
structure RequestConfig where
  method : String
  url : String
  headers : RequestHeaders := {}
  data : RequestBody := RequestBody.empty
  timeout : Nat := 30000
  withCredentials : Bool := true
  deriving DecidableEq, Repr

/-- The fulfilment handler of the request interceptor. `auth_token` is what
`localStorage.getItem` answers for the item `auth_token`. -/
def requestFulfilled (auth_token : Option String) (config : RequestConfig) : RequestConfig :=
  let withToken :=
    match auth_token with
    | some token =>
      if token = "" then config
      else { config with
              headers := { config.headers with Authorization := some ("Bearer " ++ token) } }
    | none => config
  if withToken.data.isFormData then
    { withToken with headers := { withToken.headers with contentType := none } }
  else withToken

/-- The first entry of a list of optional strings that is present and not
empty, or the fallback when there is none. -/
def firstNonEmpty (candidates : List (Option String)) (fallback : String) : String :=
  match candidates with
  | [] => fallback
  | some text :: rest => if text ≠ "" then text else firstNonEmpty rest fallback
  | none :: rest => firstNonEmpty rest fallback

/-! ## `src/components/layout/UserLayout.jsx`: the sidebar -/

/-- An entry of the sidebar: `to`, the name of the icon, `label` and `end`. -/
structure NavItem where
  target : String
  icon : String
  label : String
  isEnd : Bool := false
  deriving DecidableEq, Repr

/-- The array `allNavItems`. -/
def allNavItems : List NavItem :=
  [ { target := ROUTES.USER_DASHBOARD, icon := "LayoutGrid", label := "Overview", isEnd := true },
    { target := ROUTES.USER_PROFILE, icon := "User", label := "My Profile" },
    { target := ROUTES.USER_STUDENTS, icon := "GraduationCap", label := "Students" },
    { target := ROUTES.USER_TEACHERS, icon := "Users", label := "Teachers" },
    { target := ROUTES.USER_FACULTIES, icon := "Grid", label := "Faculties" },
    { target := ROUTES.USER_COURSES, icon := "Library", label := "Courses" },
    { target := ROUTES.USER_CLASSES, icon := "School", label := "Classes" },
    { target := ROUTES.USER_BATCHES, icon := "Calendar", label := "Batches" },
    { target := ROUTES.USER_SECTIONS, icon := "Layers", label := "Sections" },
    { target := ROUTES.USER_SUBJECTS, icon := "BookOpen", label := "Subjects" },
    { target := ROUTES.USER_ATTENDANCE, icon := "CalendarCheck", label := "Attendance" },
    { target := ROUTES.USER_EXAMS, icon := "FileText", label := "Exams & Results" },
    { target := ROUTES.USER_TIMETABLE, icon := "Clock", label := "Timetable" },
    { target := ROUTES.USER_FEES, icon := "CreditCard", label := "Fees & Payments" },
    { target := ROUTES.USER_NOTICES, icon := "Bell", label := "Notices" },
    { target := ROUTES.USER_ASSIGNMENTS, icon := "ClipboardList", label := "Assignments" },
    { target := ROUTES.USER_ENROLLMENTS, icon := "Users", label := "Enrollments" },
    { target := ROUTES.USER_TEACHER_ASSIGNMENTS, icon := "GraduationCap",
      label := "Teacher Appts" },
    { target := ROUTES.USER_REPORTS, icon := "BarChart3", label := "Reports" },
    { target := ROUTES.USER_SETTINGS, icon := "Settings", label := "Settings" } ]

/-- The array `navItems` of `UserLayout` for the `user` of the context:
`user?.approval_status === 'APPROVED'`, `user?.is_system_admin`, and the
filter over `allNavItems`. -/
def navItems (user : Option User) : List NavItem :=
  let isApproved := user.bind (fun u => u.approval_status) == some "APPROVED"
  let isSystemAdmin := truthy (user.bind (fun u => u.is_system_admin))
  allNavItems.filter (fun item =>
    if isApproved || isSystemAdmin then true
    else [ROUTES.USER_DASHBOARD, ROUTES.USER_PROFILE].contains item.target)

/-! ## `src/pages/public/SystemAdminLogin.jsx` -/

/-- The answer of `authService.systemAdminLogin`, as far as the page reads it. -/
structure CredentialsResponse where
  message : Option String := none
  deriving DecidableEq, Repr

/-- The answer of `authService.systemAdminVerifyOTP`, as far as the page reads
it. -/
structure VerifyResponse where
  user : Option User := none
  deriving DecidableEq, Repr

/-- The state cells `step`, `loading`, `error` and `success` of the page, the
redirect it has scheduled, and the session store it writes through
`login` (bound to `setGlobalUser`). The form fields only feed the payloads of
the two calls and are left out. -/
structure AdminLoginPage where
  step : Nat := 1
  loading : Bool := false
  error : String := ""
  success : String := ""
  scheduled : Option String := none
  session : SessionState
  deriving DecidableEq, Repr

/-- The text set by the `catch` blocks of the page: the network text for the
code `ERR_NETWORK`, else `err.message || fallback`. -/
def adminLoginErrorText (thrown : ApiError) (fallback : String) : String :=
  if thrown.code = some "ERR_NETWORK" then "Network error, please try again later"
  else orDefault thrown.message fallback

/-- The handler `handleLoginSubmit` (step 1), given how the awaited
`authService.systemAdminLogin` settles. -/
def AdminLoginPage.handleLoginSubmit (outcome : Except ApiError CredentialsResponse)
    (page : AdminLoginPage) : AdminLoginPage :=
  match outcome with
  | Except.ok response =>
    { page with
      error := "",
      success := orDefault response.message "Security OTP sent to your registered email.",
      step := 2,
      loading := false }
  | Except.error thrown =>
    { page with
      error := adminLoginErrorText thrown "Invalid credentials or unauthorized access",
      success := "",
      loading := false }

/-- The handler `handleOTPSubmit` (step 2), given how the awaited
`authService.systemAdminVerifyOTP` settles. The redirect of the timer goes to
the admin root for the role ADMIN and to the user dashboard otherwise; without
a user in the answer the timer callback fails before it navigates. -/
def AdminLoginPage.handleOTPSubmit (outcome : Except ApiError VerifyResponse)
    (page : AdminLoginPage) : AdminLoginPage :=
  match outcome with
  | Except.ok response =>
    { page with
      error := "",
      session := (login response.user page.session).state,
      success := "System Admin login successful",
      scheduled := response.user.map (fun user =>
        if user.role = some "ADMIN" then ROUTES.ADMIN else ROUTES.USER_DASHBOARD),
      loading := false }
  | Except.error thrown =>
    { page with
      error := adminLoginErrorText thrown "Invalid or expired security code",
      success := "",
      loading := false }

/-- What the user can do on the page. -/
inductive AdminLoginEvent where
  | submitCredentials (outcome : Except ApiError CredentialsResponse)
  | submitOTP (outcome : Except ApiError VerifyResponse)
  | back

/-- The event is a credential submission that the server accepts. -/
def AdminLoginEvent.isCredentialsSuccess : AdminLoginEvent → Bool
  | AdminLoginEvent.submitCredentials (Except.ok _) => true
  | _ => false

/-- The event is an OTP submission that the server accepts. -/
def AdminLoginEvent.isOTPSuccess : AdminLoginEvent → Bool
  | AdminLoginEvent.submitOTP (Except.ok _) => true
  | _ => false

/-- The page after one event. The render function shows the credential form
when `step === 1`, and the OTP form with its Back button otherwise; an event
of a form that is not shown cannot occur and leaves the page as it is. -/
def AdminLoginPage.dispatch (page : AdminLoginPage) (event : AdminLoginEvent) :
    AdminLoginPage :=
  if page.step = 1 then
    match event with
    | AdminLoginEvent.submitCredentials outcome => page.handleLoginSubmit outcome
    | _ => page
  else
    match event with
    | AdminLoginEvent.submitOTP outcome => page.handleOTPSubmit outcome
    | AdminLoginEvent.back => { page with step := 1 }
    | _ => page

/-- The page after a sequence of events, oldest first. -/
def AdminLoginPage.run (page : AdminLoginPage) (events : List AdminLoginEvent) :
    AdminLoginPage :=
  events.foldl AdminLoginPage.dispatch page

/-- The page at mount over a session without identity. -/
def AdminLoginPage.initial (loading : Bool) (auth_token : Option String) : AdminLoginPage :=
  { session := { user := none, loading := loading, auth_token := auth_token } }

/-! ## `src/pages/public/SignUp.jsx` -/

/-- The constant `STEPS`. -/
inductive STEPS where
  | SIGNUP
  | VERIFY
  deriving DecidableEq, Repr

/-- The state cell `formData` of the sign-up page. -/
structure SignUpForm where
  email : String := ""
  password : String := ""
  confirmPassword : String := ""
  role : String := ""
  deriving DecidableEq, Repr

/-- The state cells of the sign-up page that `handleSignupSubmit` reads or
writes. -/
structure SignUpPage where
  step : STEPS := STEPS.SIGNUP
  loading : Bool := false
  error : String := ""
  success : String := ""
  formData : SignUpForm := {}
  deriving DecidableEq, Repr

/-- The payload of `authService.register`. -/
structure RegisterPayload where
  email : String
  password : String
  role : String
  deriving DecidableEq, Repr

/-- What `handleSignupSubmit` leaves behind: the page and the register calls it
made. -/
structure SignUpResult where
  page : SignUpPage
  registerCalls : List RegisterPayload
  deriving DecidableEq, Repr

/-- The handler `handleSignupSubmit`, given how the awaited
`authService.register` settles when it is called. It is the submit handler of
the sign-up form and the click handler of the Resend button of the verify
form. -/
def handleSignupSubmit (outcome : Except ApiError Unit) (page : SignUpPage) : SignUpResult :=
  let form := page.formData
  if form.password ≠ form.confirmPassword then
    { page := { page with error := "Passwords do not match." }, registerCalls := [] }
  else
    let call : RegisterPayload :=
      { email := form.email, password := form.password, role := form.role }
    match outcome with
    | Except.ok _ =>
      { page := { page with
                  error := "",
                  step := STEPS.VERIFY,
                  success := "Signup initiated! Please check your email for the OTP.",
                  loading := false },
        registerCalls := [call] }
    | Except.error thrown =>
      { page := { page with
                  error := orDefault
                    ((thrown.response.bind (fun response => response.data)).bind
                      (fun data => data.error))
                    (orDefault thrown.message "Signup failed. Please try again."),
                  loading := false },
        registerCalls := [call] }

/-! ## Following redirects over the routing table -/

/-- The route that serves a path: the entry registered for it, or else the
catch-all entry `*`. -/
def matchRoute (path : String) : RouteEntry :=
  (AppRoutes.find? (fun entry => entry.path == path)).getD ⟨"*", Guard.unguarded⟩

/-- The decision of the guard of the route that serves a path; a route without
guard renders. -/
def gate (session : AuthValue) (path : String) : Decision :=
  match (matchRoute path).guard with
  | Guard.publicRoute props => (PublicRoute props session).decision
  | Guard.privateRoute props => (PrivateRoute props session path).decision
  | Guard.unguarded => Decision.render

/-- The number of redirects followed from a path until a screen is rendered,
or `none` when no screen is rendered within `limit` redirects. -/
def redirectsToRender (session : AuthValue) (path : String) (limit : Nat) : Option Nat :=
  match gate session path, limit with
  | Decision.render, _ => some 0
  | Decision.redirect target, remaining + 1 =>
    (redirectsToRender session target remaining).map (fun count => count + 1)
  | _, _ => none

/-! ## Properties of the gate -/

theorem truthy_eq_true_iff (flag : Option Bool) : truthy flag = true ↔ flag = some true := by
  cases flag with
  | none => simp [truthy]
  | some b => cases b <;> simp [truthy]

theorem restrictedModules_eq : restrictedModules = restrictedWhileUnapproved := by
  decide

/-- Claim C1, as amended: for every session, path, allowedRoles and configured
login path, the decision of PrivateRoute is the first matching rule of the
seven rules, where rule 6 reads the role as `USER` when the role field is
missing or empty. -/
theorem privateRoute_eq_sevenRules (props : PrivateRouteProps) (session : AuthValue)
    (path : String) :
    (PrivateRoute props session path).decision
      = sevenRules effectiveRoleIn (props.redirectTo.getD ROUTES.LOGIN)
          (props.allowedRoles.getD []) session path := by
  obtain ⟨user, loading⟩ := session
  cases loading with
  | true => simp [PrivateRoute, sevenRules, firstMatch, Element.decision]
  | false =>
    cases user with
    | none => simp [PrivateRoute, sevenRules, firstMatch, Element.decision]
    | some u =>
      have hadmin : (u.is_system_admin == some true) = truthy u.is_system_admin := by
        cases h : u.is_system_admin with
        | none => simp [truthy]
        | some b => cases b <;> simp [truthy]
      have hroles : (!(props.allowedRoles.getD []).isEmpty)
          = decide ((props.allowedRoles.getD []).length > 0) := by
        cases props.allowedRoles.getD [] <;> simp
      simp only [PrivateRoute, sevenRules, firstMatch, effectiveRoleIn, inRestrictedModule,
        ← restrictedModules_eq, ROUTES.USER_PROFILE, ROUTES.USER_DASHBOARD, Option.any_some,
        Option.isNone_some, hadmin, hroles, List.find?]
      generalize truthy u.is_system_admin = c3
      generalize ((u.approval_status == some "PENDING_PROFILE" || u.approval_status == some "REJECTED")
            && path != "/dashboard/profile") = c4
      generalize ((u.approval_status == some "PENDING_APPROVAL" || u.approval_status == some "REJECTED"
            || u.approval_status == some "PENDING_PROFILE")
            && restrictedModules.any (fun route => startsWith path route)) = c5
      generalize (decide ((props.allowedRoles.getD []).length > 0)
            && !(props.allowedRoles.getD []).contains (orDefault u.role "USER")) = c6
      cases c3 <;> cases c4 <;> cases c5 <;> cases c6 <;> rfl

/-- Claim C1, as stated, fails: an approved user whose record carries no role,
on the dashboard route with its declared allowedRoles, is rendered by
PrivateRoute, while rule 6 over the role field itself answers the redirect to
the unauthorized path. -/
theorem sevenRules_role_field_counterexample :
    (PrivateRoute { allowedRoles := some ["USER", "STAFF", "ADMIN", "TEACHER", "ACCOUNTANT"] }
        ⟨some { email := some "kim@school.test", approval_status := some "APPROVED",
                is_system_admin := some false }, false⟩ "/dashboard").decision
      = Decision.render
    ∧ sevenRules roleFieldIn "/login" ["USER", "STAFF", "ADMIN", "TEACHER", "ACCOUNTANT"]
        ⟨some { email := some "kim@school.test", approval_status := some "APPROVED",
                is_system_admin := some false }, false⟩ "/dashboard"
      = Decision.redirect "/unauthorized" := by
  decide

/-- Claim C2: while the session is loading, PrivateRoute and PublicRoute both
answer the loading placeholder, whatever the identity, the path and the props
(allowedRoles, restricted, redirectTo) are. -/
theorem loading_yields_placeholder (privateProps : PrivateRouteProps)
    (publicProps : PublicRouteProps) (identity : Option User) (path : String) :
    (PrivateRoute privateProps ⟨identity, true⟩ path).decision = Decision.loading
    ∧ (PublicRoute publicProps ⟨identity, true⟩).decision = Decision.loading := by
  constructor <;> simp [PrivateRoute, PublicRoute, Element.decision]

/-- Claim C3: with loading false and no identity, PrivateRoute redirects to
the configured login path, for every path and allowedRoles; that path is
`/login` under the default redirectTo, hence for every private route of the
routing table. -/
theorem privateRoute_absent_identity (props : PrivateRouteProps) (path : String) :
    (PrivateRoute props ⟨none, false⟩ path).decision
      = Decision.redirect (props.redirectTo.getD "/login")
    ∧ ((props.redirectTo = none ∨ ∃ entry ∈ AppRoutes, entry.guard = Guard.privateRoute props) →
        (PrivateRoute props ⟨none, false⟩ path).decision = Decision.redirect "/login") := by
  have hconf : (PrivateRoute props ⟨none, false⟩ path).decision
      = Decision.redirect (props.redirectTo.getD "/login") := by
    simp [PrivateRoute, Element.decision, ROUTES.LOGIN]
  refine ⟨hconf, ?_⟩
  intro h
  have hdefault : props.redirectTo = none := by
    rcases h with h | ⟨entry, hmem, hguard⟩
    · exact h
    · simp only [AppRoutes, List.mem_cons, List.mem_singleton, List.not_mem_nil, or_false] at hmem
      rcases hmem with h | h | h | h | h | h | h | h | h | h | h | h | h | h | h | h | h | h
        | h | h | h | h | h <;> subst h <;> simp at hguard <;> subst hguard <;> rfl
  rw [hconf, hdefault]
  rfl

/-- Witness of C3 at the admin route, requested at `/admin`. -/
theorem privateRoute_absent_identity_witness :
    (PrivateRoute { allowedRoles := some ["ADMIN"] } ⟨none, false⟩ "/admin").decision
      = Decision.redirect "/login" :=
  (privateRoute_absent_identity { allowedRoles := some ["ADMIN"] } "/admin").2
    (Or.inr ⟨⟨ROUTES.ADMIN, Guard.privateRoute { allowedRoles := some ["ADMIN"] }⟩,
      by decide, rfl⟩)

/-- Claim C4: for a system admin, with loading false, PrivateRoute renders the
route for every approval status, role, allowedRoles and path. -/
theorem privateRoute_system_admin_renders (props : PrivateRouteProps) (identity : User)
    (path : String) (hadmin : identity.is_system_admin = some true) :
    (PrivateRoute props ⟨some identity, false⟩ path).decision = Decision.render := by
  simp [PrivateRoute, Element.decision, truthy, hadmin]

/-- Witness of C4: a rejected system admin with role USER on a restricted-module
path that allows ADMIN only. -/
theorem privateRoute_system_admin_renders_witness :
    (PrivateRoute { allowedRoles := some ["ADMIN"] }
        ⟨some { role := some "USER", approval_status := some "REJECTED",
                is_system_admin := some true }, false⟩ "/dashboard/students").decision
      = Decision.render :=
  privateRoute_system_admin_renders { allowedRoles := some ["ADMIN"] }
    { role := some "USER", approval_status := some "REJECTED", is_system_admin := some true }
    "/dashboard/students" rfl

/-- Claim C5: for an identity that is not a system admin and whose approval
status is PENDING_PROFILE or REJECTED, every path other than the profile-setup
path (`ROUTES.USER_PROFILE`, that is `/dashboard/profile`) is redirected to the
profile-setup path, for every role and allowedRoles. -/
theorem privateRoute_profile_gating (props : PrivateRouteProps) (identity : User)
    (path : String) (hadmin : identity.is_system_admin ≠ some true)
    (hstatus : identity.approval_status = some "PENDING_PROFILE"
      ∨ identity.approval_status = some "REJECTED")
    (hpath : path ≠ ROUTES.USER_PROFILE) :
    (PrivateRoute props ⟨some identity, false⟩ path).decision
      = Decision.redirect ROUTES.USER_PROFILE := by
  have h3 : truthy identity.is_system_admin = false := by
    rw [← Bool.not_eq_true, truthy_eq_true_iff]
    exact hadmin
  rcases hstatus with hs | hs <;>
    simp [PrivateRoute, Element.decision, h3, hs, hpath]

/-- Witness of C5: a rejected teacher on a restricted-module path, where the
profile rule wins over the dashboard redirect. -/
theorem privateRoute_profile_gating_witness :
    (PrivateRoute { allowedRoles := some ["ADMIN", "STAFF", "TEACHER"] }
        ⟨some { role := some "TEACHER", approval_status := some "REJECTED",
                is_system_admin := some false }, false⟩ "/dashboard/students").decision
      = Decision.redirect "/dashboard/profile" :=
  privateRoute_profile_gating { allowedRoles := some ["ADMIN", "STAFF", "TEACHER"] }
    { role := some "TEACHER", approval_status := some "REJECTED", is_system_admin := some false }
    "/dashboard/students" (by decide) (Or.inr rfl) (by decide)

/-- Claim C6: for an identity that is not a system admin and whose approval
status is PENDING_APPROVAL, every path that starts with one of the eleven
restricted-module paths is redirected to `/dashboard`, for every role and
allowedRoles: the rule fires before the role check. -/
theorem privateRoute_pending_approval_restricted (props : PrivateRouteProps) (identity : User)
    (path : String) (hadmin : identity.is_system_admin ≠ some true)
    (hstatus : identity.approval_status = some "PENDING_APPROVAL")
    (hpath : ∃ route ∈ restrictedWhileUnapproved, startsWith path route = true) :
    (PrivateRoute props ⟨some identity, false⟩ path).decision
      = Decision.redirect "/dashboard" := by
  have h3 : truthy identity.is_system_admin = false := by
    rw [← Bool.not_eq_true, truthy_eq_true_iff]
    exact hadmin
  have h5 : restrictedModules.any (fun route => startsWith path route) = true := by
    rw [restrictedModules_eq, List.any_eq_true]
    exact hpath
  simp [PrivateRoute, Element.decision, h3, hstatus, h5, ROUTES.USER_DASHBOARD]

/-- Witness of C6: role USER, pending approval, at `/dashboard/students`, on the
route that allows ADMIN, STAFF and TEACHER. -/
theorem privateRoute_pending_approval_restricted_witness :
    (PrivateRoute { allowedRoles := some ["ADMIN", "STAFF", "TEACHER"] }
        ⟨some { role := some "USER", approval_status := some "PENDING_APPROVAL",
                is_system_admin := some false }, false⟩ "/dashboard/students").decision
      = Decision.redirect "/dashboard" :=
  privateRoute_pending_approval_restricted { allowedRoles := some ["ADMIN", "STAFF", "TEACHER"] }
    { role := some "USER", approval_status := some "PENDING_APPROVAL",
      is_system_admin := some false }
    "/dashboard/students" (by decide) rfl ⟨"/dashboard/students", by decide, by decide⟩

/-- Claim C7, as amended: for an identity that is not a system admin and whose
approval status is PENDING_APPROVAL, on a path that starts with none of the
restricted-module paths, PrivateRoute renders whenever allowedRoles is empty or
contains the role as the guard reads it (`USER` when the role field is missing
or empty). -/
theorem privateRoute_pending_approval_unrestricted (props : PrivateRouteProps)
    (identity : User) (path : String) (hadmin : identity.is_system_admin ≠ some true)
    (hstatus : identity.approval_status = some "PENDING_APPROVAL")
    (hpath : ∀ route ∈ restrictedWhileUnapproved, startsWith path route = false)
    (hroles : props.allowedRoles.getD [] = []
      ∨ orDefault identity.role "USER" ∈ props.allowedRoles.getD []) :
    (PrivateRoute props ⟨some identity, false⟩ path).decision = Decision.render := by
  have h3 : truthy identity.is_system_admin = false := by
    rw [← Bool.not_eq_true, truthy_eq_true_iff]
    exact hadmin
  have h5 : restrictedModules.any (fun route => startsWith path route) = false := by
    rw [restrictedModules_eq, List.any_eq_false]
    intro route hmem
    simp [hpath route hmem]
  rcases hroles with hr | hr <;>
    simp [PrivateRoute, Element.decision, h3, hstatus, h5, hr]

/-- Witness of C7: role USER, pending approval, on the dashboard route. -/
theorem privateRoute_pending_approval_unrestricted_witness :
    (PrivateRoute { allowedRoles := some ["USER", "STAFF", "ADMIN", "TEACHER", "ACCOUNTANT"] }
        ⟨some { role := some "USER", approval_status := some "PENDING_APPROVAL",
                is_system_admin := some false }, false⟩ "/dashboard").decision
      = Decision.render :=
  privateRoute_pending_approval_unrestricted
    { allowedRoles := some ["USER", "STAFF", "ADMIN", "TEACHER", "ACCOUNTANT"] }
    { role := some "USER", approval_status := some "PENDING_APPROVAL",
      is_system_admin := some false }
    "/dashboard" (by decide) rfl (by decide) (Or.inr (by decide))

/-- Claim C7, as stated, fails: a pending-approval identity whose role field is
the empty string, on a path outside the restricted modules and with the role
field a member of allowedRoles, is redirected to the unauthorized path. -/
theorem privateRoute_pending_approval_empty_role_counterexample :
    roleFieldIn { role := some "", approval_status := some "PENDING_APPROVAL",
                  is_system_admin := some false } ["", "STAFF"] = true
    ∧ inRestrictedModule "/dashboard/reports" = false
    ∧ (PrivateRoute { allowedRoles := some ["", "STAFF"] }
        ⟨some { role := some "", approval_status := some "PENDING_APPROVAL",
                is_system_admin := some false }, false⟩ "/dashboard/reports").decision
      = Decision.redirect "/unauthorized" := by
  decide

/-- Claim C8, as amended: for an approved identity that is not a system admin,
every path and every non-empty allowedRoles that does not contain the role as
the guard reads it (`USER` when the role field is missing or empty),
PrivateRoute redirects to `/unauthorized`. -/
theorem privateRoute_role_not_allowed (props : PrivateRouteProps) (identity : User)
    (path : String) (hadmin : identity.is_system_admin ≠ some true)
    (hstatus : identity.approval_status = some "APPROVED")
    (hnonempty : props.allowedRoles.getD [] ≠ [])
    (hrole : orDefault identity.role "USER" ∉ props.allowedRoles.getD []) :
    (PrivateRoute props ⟨some identity, false⟩ path).decision
      = Decision.redirect "/unauthorized" := by
  have h3 : truthy identity.is_system_admin = false := by
    rw [← Bool.not_eq_true, truthy_eq_true_iff]
    exact hadmin
  have hlen : 0 < (props.allowedRoles.getD []).length := List.length_pos.mpr hnonempty
  simp [PrivateRoute, Element.decision, h3, hstatus, hlen, hrole]

/-- Witness of C8: an approved teacher on an admin route. -/
theorem privateRoute_role_not_allowed_witness :
    (PrivateRoute { allowedRoles := some ["ADMIN"] }
        ⟨some { role := some "TEACHER", approval_status := some "APPROVED",
                is_system_admin := some false }, false⟩ "/admin/users").decision
      = Decision.redirect "/unauthorized" :=
  privateRoute_role_not_allowed { allowedRoles := some ["ADMIN"] }
    { role := some "TEACHER", approval_status := some "APPROVED", is_system_admin := some false }
    "/admin/users" (by decide) rfl (by decide) (by decide)

/-- Claim C8, as stated, fails: an approved identity without a role field, whose
role is therefore a member of no list, is rendered on a route whose non-empty
allowedRoles contains `USER`. -/
theorem privateRoute_missing_role_counterexample :
    roleFieldIn { role := none, approval_status := some "APPROVED",
                  is_system_admin := some false } ["USER", "STAFF"] = false
    ∧ (PrivateRoute { allowedRoles := some ["USER", "STAFF"] }
        ⟨some { role := none, approval_status := some "APPROVED",
                is_system_admin := some false }, false⟩ "/dashboard/notices").decision
      = Decision.render := by
  decide

/-- Claim C9, as amended: for an approved identity that is not a system admin,
every path (restricted-module paths included) and every allowedRoles that is
empty or contains the role as the guard reads it (`USER` when the role field is
missing or empty), PrivateRoute renders. -/
theorem privateRoute_approved_renders (props : PrivateRouteProps) (identity : User)
    (path : String) (hadmin : identity.is_system_admin ≠ some true)
    (hstatus : identity.approval_status = some "APPROVED")
    (hroles : props.allowedRoles.getD [] = []
      ∨ orDefault identity.role "USER" ∈ props.allowedRoles.getD []) :
    (PrivateRoute props ⟨some identity, false⟩ path).decision = Decision.render := by
  have h3 : truthy identity.is_system_admin = false := by
    rw [← Bool.not_eq_true, truthy_eq_true_iff]
    exact hadmin
  rcases hroles with hr | hr <;>
    simp [PrivateRoute, Element.decision, h3, hstatus, hr]

/-- Witness of C9: an approved teacher at `/dashboard/students`, on the route
that allows ADMIN, STAFF and TEACHER. -/
theorem privateRoute_approved_renders_witness :
    (PrivateRoute { allowedRoles := some ["ADMIN", "STAFF", "TEACHER"] }
        ⟨some { role := some "TEACHER", approval_status := some "APPROVED",
                is_system_admin := some false }, false⟩ "/dashboard/students").decision
      = Decision.render :=
  privateRoute_approved_renders { allowedRoles := some ["ADMIN", "STAFF", "TEACHER"] }
    { role := some "TEACHER", approval_status := some "APPROVED", is_system_admin := some false }
    "/dashboard/students" (by decide) rfl (Or.inr (by decide))

/-- Claim C9, as stated, fails: an approved identity whose role field is the
empty string is redirected to the unauthorized path although allowedRoles
contains its role field. -/
theorem privateRoute_approved_empty_role_counterexample :
    roleFieldIn { role := some "", approval_status := some "APPROVED",
                  is_system_admin := some false } ["", "ADMIN"] = true
    ∧ (PrivateRoute { allowedRoles := some ["", "ADMIN"] }
        ⟨some { role := some "", approval_status := some "APPROVED",
                is_system_admin := some false }, false⟩ "/dashboard/students").decision
      = Decision.redirect "/unauthorized" := by
  decide

/-- Claim C10: with loading false, PublicRoute redirects exactly when the route
is restricted and an identity is present; the target is `/admin` for a system
admin and the configured redirectTo (`/dashboard` by default) otherwise,
whatever the role and approval status; in every other case it renders. -/
theorem publicRoute_decision (props : PublicRouteProps) (identity : Option User) :
    (PublicRoute props ⟨identity, false⟩).decision
      = (match identity with
        | some user =>
          if props.restricted = some true then
            Decision.redirect
              (if user.is_system_admin = some true then "/admin"
               else props.redirectTo.getD "/dashboard")
          else Decision.render
        | none => Decision.render)
    ∧ ((∃ target, (PublicRoute props ⟨identity, false⟩).decision = Decision.redirect target)
        ↔ (props.restricted = some true ∧ identity.isSome = true)) := by
  obtain ⟨restricted, redirectTo⟩ := props
  rcases restricted with _ | _ | _ <;> rcases identity with _ | user <;>
    simp [PublicRoute, Element.decision, ROUTES.ADMIN, ROUTES.DASHBOARD]
  all_goals
    rcases h : user.is_system_admin with _ | _ | _ <;> simp [truthy]

theorem privateRoute_decision_present (props : PrivateRouteProps) (identity : User)
    (path : String) :
    (PrivateRoute props ⟨some identity, false⟩ path).decision
      = bif truthy identity.is_system_admin then Decision.render
        else bif (identity.approval_status == some "PENDING_PROFILE"
              || identity.approval_status == some "REJECTED") && path != "/dashboard/profile"
          then Decision.redirect "/dashboard/profile"
        else bif (identity.approval_status == some "PENDING_APPROVAL"
              || identity.approval_status == some "REJECTED"
              || identity.approval_status == some "PENDING_PROFILE") && inRestrictedModule path
          then Decision.redirect "/dashboard"
        else bif decide ((props.allowedRoles.getD []).length > 0)
              && !(props.allowedRoles.getD []).contains (orDefault identity.role "USER")
          then Decision.redirect "/unauthorized"
        else Decision.render := by
  simp only [PrivateRoute, inRestrictedModule, ← restrictedModules_eq, ROUTES.USER_PROFILE,
    ROUTES.USER_DASHBOARD]
  generalize truthy identity.is_system_admin = c3
  generalize ((identity.approval_status == some "PENDING_PROFILE"
      || identity.approval_status == some "REJECTED") && path != "/dashboard/profile") = c4
  generalize ((identity.approval_status == some "PENDING_APPROVAL"
      || identity.approval_status == some "REJECTED"
      || identity.approval_status == some "PENDING_PROFILE")
      && restrictedModules.any (fun route => startsWith path route)) = c5
  generalize (decide ((props.allowedRoles.getD []).length > 0)
      && !(props.allowedRoles.getD []).contains (orDefault identity.role "USER")) = c6
  cases c3 <;> cases c4 <;> cases c5 <;> cases c6 <;> rfl

/-- Claim C11: an identity that is not a system admin and whose approval status
is PENDING_PROFILE or REJECTED is never sent to the user dashboard by
PrivateRoute, on any path; the profile-setup path starts with none of the
restricted-module paths; and whenever PrivateRoute answers an identity with the
redirect to the user dashboard, its approval status is PENDING_APPROVAL. -/
theorem dashboard_redirect_only_pending_approval (props : PrivateRouteProps)
    (identity : User) (loading : Bool) (path : String) :
    (identity.is_system_admin ≠ some true →
      (identity.approval_status = some "PENDING_PROFILE"
        ∨ identity.approval_status = some "REJECTED") →
      (PrivateRoute props ⟨some identity, loading⟩ path).decision
        ≠ Decision.redirect "/dashboard")
    ∧ inRestrictedModule ROUTES.USER_PROFILE = false
    ∧ ((PrivateRoute props ⟨some identity, loading⟩ path).decision
          = Decision.redirect "/dashboard" →
        identity.approval_status = some "PENDING_APPROVAL") := by
  have hprofile : inRestrictedModule "/dashboard/profile" = false := by decide
  have key : (PrivateRoute props ⟨some identity, loading⟩ path).decision
        = Decision.redirect "/dashboard" →
      identity.approval_status = some "PENDING_APPROVAL" := by
    intro h
    cases loading with
    | true => simp [PrivateRoute, Element.decision] at h
    | false =>
      rw [privateRoute_decision_present] at h
      have hd : (path != "/dashboard/profile") = false → inRestrictedModule path = false := by
        intro hne
        have heq : path = "/dashboard/profile" := by simpa using hne
        rw [heq]
        exact hprofile
      have hc : (identity.approval_status == some "PENDING_APPROVAL") = true →
          identity.approval_status = some "PENDING_APPROVAL" := by
        intro heq
        simpa using heq
      revert h hd hc
      generalize truthy identity.is_system_admin = c3
      generalize (identity.approval_status == some "PENDING_PROFILE") = isProfile
      generalize (identity.approval_status == some "REJECTED") = isRejected
      generalize (identity.approval_status == some "PENDING_APPROVAL") = isPending
      generalize (path != "/dashboard/profile") = offProfile
      generalize inRestrictedModule path = restricted
      generalize (decide ((props.allowedRoles.getD []).length > 0)
        && !(props.allowedRoles.getD []).contains (orDefault identity.role "USER")) = c6
      intro h hd hc
      cases isPending
      case true => exact hc rfl
      case false =>
        cases c3 <;> cases isProfile <;> cases isRejected <;> cases offProfile <;>
          cases restricted <;> cases c6 <;> simp at h hd
  refine ⟨?_, by decide, key⟩
  intro _ hstatus h
  have := key h
  rcases hstatus with hs | hs <;> rw [hs] at this <;> simp at this

/-- Witness of C11: a rejected teacher on the students route is sent to the
profile page, not to the dashboard. -/
theorem dashboard_redirect_only_pending_approval_witness :
    (PrivateRoute { allowedRoles := some ["ADMIN", "STAFF", "TEACHER"] }
        ⟨some { role := some "TEACHER", approval_status := some "REJECTED",
                is_system_admin := some false }, false⟩ "/dashboard/students").decision
      ≠ Decision.redirect "/dashboard" :=
  (dashboard_redirect_only_pending_approval { allowedRoles := some ["ADMIN", "STAFF", "TEACHER"] }
    { role := some "TEACHER", approval_status := some "REJECTED", is_system_admin := some false }
    false "/dashboard/students").1 (by decide) (Or.inr rfl)

/-- Claim C12: under a session, for every identity (absent, or present with any
fields, missing ones included), every path and every props, PrivateRoute and
PublicRoute each return an element and throw nothing, and the element stands
for exactly one of the loading placeholder, the screen, or a redirect to a
path. -/
theorem guards_total (session : AuthValue) (privateProps : PrivateRouteProps)
    (publicProps : PublicRouteProps) (path : String) :
    (∃ element, renderPrivateRoute (some session) privateProps path = Except.ok element
      ∧ (element.decision = Decision.loading ∨ element.decision = Decision.render
          ∨ ∃ target, element.decision = Decision.redirect target))
    ∧ (∃ element, renderPublicRoute (some session) publicProps = Except.ok element
      ∧ (element.decision = Decision.loading ∨ element.decision = Decision.render
          ∨ ∃ target, element.decision = Decision.redirect target)) := by
  have three : ∀ decision : Decision, decision = Decision.loading ∨ decision = Decision.render
      ∨ ∃ target, decision = Decision.redirect target := by
    intro decision
    cases decision with
    | loading => exact Or.inl rfl
    | render => exact Or.inr (Or.inl rfl)
    | redirect target => exact Or.inr (Or.inr ⟨target, rfl⟩)
  exact ⟨⟨PrivateRoute privateProps session path, rfl, three _⟩,
    ⟨PublicRoute publicProps session, rfl, three _⟩⟩

/-- Claim C13: from every prior state, when the identity endpoint succeeds with
the record `u`, checkAuth ends with the identity equal to `u` and loading
false. -/
theorem checkAuth_success (state : SessionState) (u : User) :
    (checkAuth (Except.ok (some u)) state).state.user = some u
    ∧ (checkAuth (Except.ok (some u)) state).state.loading = false := by
  exact ⟨rfl, rfl⟩

/-- Claim C14: from every prior state and for every failure of the identity
endpoint, checkAuth completes without an error for its caller and ends with
the identity absent and loading false. -/
theorem checkAuth_failure (state : SessionState) (failure : ApiError) :
    (checkAuth (Except.error failure) state).result = Except.ok ()
    ∧ (checkAuth (Except.error failure) state).state.user = none
    ∧ (checkAuth (Except.error failure) state).state.loading = false := by
  exact ⟨rfl, rfl, rfl⟩

theorem step_loading_false (state : SessionState) (event : AuthEvent)
    (h : state.loading = false) : (step state event).loading = false := by
  cases event with
  | checkAuth outcome => cases outcome <;> rfl
  | login userData => exact h
  | logout outcome => cases outcome <;> exact h

theorem run_loading_false (events : List AuthEvent) (state : SessionState)
    (h : state.loading = false) : (run state events).loading = false := by
  induction events generalizing state with
  | nil => exact h
  | cons event rest ih => exact ih (step state event) (step_loading_false state event h)

theorem run_append (state : SessionState) (before after : List AuthEvent) :
    run state (before ++ after) = run (run state before) after := by
  simp [run, List.foldl_append]

/-- Claim C15: loading is true in the initial state, and along every sequence
of completed operations of the store (checkAuth with either outcome, login,
logout with either outcome), once loading is false it is false ever after. -/
theorem loading_monotone (auth_token : Option String) (before after : List AuthEvent) :
    (initialState auth_token).loading = true
    ∧ ((run (initialState auth_token) before).loading = false →
        (run (initialState auth_token) (before ++ after)).loading = false) := by
  refine ⟨rfl, ?_⟩
  intro h
  rw [run_append]
  exact run_loading_false after _ h

/-- Witness of C15: after a failed checkAuth, a login and a failing logout leave
loading false. -/
theorem loading_monotone_witness :
    (run (initialState none)
      ([AuthEvent.checkAuth (Except.error { message := some "Network Error" })]
        ++ [AuthEvent.login (some { role := some "USER" }),
            AuthEvent.logout (Except.error { message := some "Network Error" })])).loading
      = false :=
  (loading_monotone none
    [AuthEvent.checkAuth (Except.error { message := some "Network Error" })]
    [AuthEvent.login (some { role := some "USER" }),
     AuthEvent.logout (Except.error { message := some "Network Error" })]).2 rfl

theorem run_loading_of_no_checkAuth (events : List AuthEvent) (state : SessionState)
    (h : ∀ event ∈ events, event.isCheckAuth = false) :
    (run state events).loading = state.loading := by
  induction events generalizing state with
  | nil => rfl
  | cons event rest ih =>
    have hrest : ∀ later ∈ rest, later.isCheckAuth = false :=
      fun later hmem => h later (List.mem_cons_of_mem event hmem)
    have hstep : (step state event).loading = state.loading := by
      cases event with
      | checkAuth outcome =>
        have := h (AuthEvent.checkAuth outcome) (List.mem_cons_self _ _)
        simp [AuthEvent.isCheckAuth] at this
      | login userData => rfl
      | logout outcome => cases outcome <;> rfl
    calc (run state (event :: rest)).loading
        = (run (step state event) rest).loading := rfl
      _ = (step state event).loading := ih (step state event) hrest
      _ = state.loading := hstep

theorem guards_loading_of_loading (state : SessionState) (privateProps : PrivateRouteProps)
    (publicProps : PublicRouteProps) (path : String) (h : state.loading = true) :
    (PrivateRoute privateProps state.value path).decision = Decision.loading
    ∧ (PublicRoute publicProps state.value).decision = Decision.loading := by
  constructor <;> simp [PrivateRoute, PublicRoute, SessionState.value, Element.decision, h]

/-- Claim C16: in every state reached from the initial state by login and logout
only, PrivateRoute and PublicRoute both answer the loading placeholder; and
when one of them answers anything else after a sequence of operations, a
checkAuth call has completed in that sequence. -/
theorem loading_until_checkAuth (auth_token : Option String) (events : List AuthEvent)
    (privateProps : PrivateRouteProps) (publicProps : PublicRouteProps) (path : String) :
    ((∀ event ∈ events, event.isCheckAuth = false) →
      (PrivateRoute privateProps (run (initialState auth_token) events).value path).decision
          = Decision.loading
        ∧ (PublicRoute publicProps (run (initialState auth_token) events).value).decision
          = Decision.loading)
    ∧ (((PrivateRoute privateProps (run (initialState auth_token) events).value path).decision
          ≠ Decision.loading
        ∨ (PublicRoute publicProps (run (initialState auth_token) events).value).decision
          ≠ Decision.loading) →
      ∃ event ∈ events, event.isCheckAuth = true) := by
  have gate : (∀ event ∈ events, event.isCheckAuth = false) →
      (PrivateRoute privateProps (run (initialState auth_token) events).value path).decision
          = Decision.loading
        ∧ (PublicRoute publicProps (run (initialState auth_token) events).value).decision
          = Decision.loading := by
    intro h
    apply guards_loading_of_loading
    rw [run_loading_of_no_checkAuth events _ h]
    rfl
  refine ⟨gate, ?_⟩
  intro hdecision
  by_contra hnone
  have hall : ∀ event ∈ events, event.isCheckAuth = false := by
    intro event hmem
    cases hcheck : event.isCheckAuth with
    | false => rfl
    | true => exact absurd ⟨event, hmem, hcheck⟩ hnone
  rcases hdecision with hp | hp
  · exact hp (gate hall).1
  · exact hp (gate hall).2

/-- Witness of C16: after a login and a failing logout, with no checkAuth
completed, the guards of the students route and of the login route answer the
loading placeholder. -/
theorem loading_until_checkAuth_witness :
    (PrivateRoute { allowedRoles := some ["ADMIN", "STAFF", "TEACHER"] }
        (run (initialState none)
          [AuthEvent.login (some { role := some "ADMIN", approval_status := some "APPROVED" }),
           AuthEvent.logout (Except.error { message := some "Network Error" })]).value
        "/dashboard/students").decision = Decision.loading
    ∧ (PublicRoute { restricted := some true }
        (run (initialState none)
          [AuthEvent.login (some { role := some "ADMIN", approval_status := some "APPROVED" }),
           AuthEvent.logout (Except.error { message := some "Network Error" })]).value).decision
      = Decision.loading :=
  (loading_until_checkAuth none
    [AuthEvent.login (some { role := some "ADMIN", approval_status := some "APPROVED" }),
     AuthEvent.logout (Except.error { message := some "Network Error" })]
    { allowedRoles := some ["ADMIN", "STAFF", "TEACHER"] } { restricted := some true }
    "/dashboard/students").1
    (by
      intro event hmem
      simp only [List.mem_cons, List.mem_singleton, List.not_mem_nil, or_false] at hmem
      rcases hmem with h | h <;> subst h <;> rfl)

/-- Claim C17: login is a setter: from every prior state and for every record
`u`, the state after `login(u)` has the identity `u` and the loading flag and
the stored token of before, and no endpoint call is issued. -/
theorem login_sets_identity (state : SessionState) (u : User) :
    (login (some u) state).state.user = some u
    ∧ (login (some u) state).state.loading = state.loading
    ∧ (login (some u) state).state.auth_token = state.auth_token
    ∧ (login (some u) state).requests = [] := by
  exact ⟨rfl, rfl, rfl, rfl⟩

/-- Claim C18: from every prior state and for both outcomes of the logout call,
the state after logout has no identity and no stored token, and the loading
flag of before; a second logout, with any outcome, leaves that state as it
is. -/
theorem logout_clears (state : SessionState) (first second : Except ApiError Unit) :
    (logout first state).state
      = { user := none, loading := state.loading, auth_token := none }
    ∧ (logout second (logout first state).state).state = (logout first state).state := by
  cases first <;> cases second <;> exact ⟨rfl, rfl⟩

/-- Claim C19, as amended: logout hands a failure of the logout endpoint on to
its caller: it completes normally when the call succeeds and rejects with the
error of the call when it fails, in both cases with the identity and the token
cleared, and so also on a second logout in a row; handleLogout of the layouts
catches the rejection, completes normally for every outcome and navigates home
only after a success. -/
theorem logout_result (state : SessionState) (outcome second : Except ApiError Unit) :
    (logout outcome state).result = outcome
    ∧ (logout second (logout outcome state).state).result = second
    ∧ (logout outcome state).state.user = none
    ∧ (logout outcome state).state.auth_token = none
    ∧ (handleLogout outcome state).result = Except.ok ()
    ∧ (handleLogout outcome state).state = (logout outcome state).state
    ∧ ((handleLogout outcome state).navigated = some "/" ↔ outcome = Except.ok ()) := by
  cases outcome <;> cases second <;>
    simp [logout, handleLogout, ROUTES.HOME]

/-- Claim C19, as stated, fails: a logout whose endpoint call fails with a
network error rejects with that error. -/
theorem logout_rejects_counterexample :
    (logout (Except.error { message := some "Network Error", code := some "ERR_NETWORK" })
        { user := some { role := some "USER", approval_status := some "APPROVED" },
          loading := false, auth_token := some "token-1" }).result
      = Except.error { message := some "Network Error", code := some "ERR_NETWORK" } := by
  rfl

/-- Claim C20, as amended: for every failed response with status 401, the
response interceptor removes the stored token when the current page path does
not contain `/login`, and leaves it as it is when the path contains `/login`. -/
theorem responseRejected_unauthorized (browser : Browser) (failure : ApiError)
    (response : ErrorResponse) (hresponse : failure.response = some response)
    (hstatus : response.status = 401) :
    (responseRejected browser failure).1.auth_token
      = if includes browser.pathname "/login" = true then browser.auth_token else none := by
  cases hlogin : includes browser.pathname "/login" <;>
    simp [responseRejected, hresponse, hstatus, hlogin]

/-- Witness of C20: a 401 answered while the dashboard is shown. -/
theorem responseRejected_unauthorized_witness :
    (responseRejected { auth_token := some "token-1", pathname := "/dashboard" }
        { response := some { status := 401 } }).1.auth_token = none :=
  responseRejected_unauthorized { auth_token := some "token-1", pathname := "/dashboard" }
    { response := some { status := 401 } } { status := 401 } rfl rfl

/-- Claim C20, as stated, fails: a 401 answered while the login page is shown
leaves the stored token in place. -/
theorem responseRejected_login_page_counterexample :
    (responseRejected { auth_token := some "token-1", pathname := "/login" }
        { response := some { status := 401, data := some { error := some "Invalid credentials" } } }
      ).1.auth_token = some "token-1" := by
  decide

/-- Claim C21: the request interceptor sets the Authorization header to
`Bearer ` followed by the stored token when a non-empty token is stored, leaves
that header as it was when no token is stored, deletes the Content-Type header
when the body is form data and keeps it otherwise, and changes nothing else of
the configuration. -/
theorem requestFulfilled_spec (auth_token : Option String) (config : RequestConfig) :
    (∀ token, auth_token = some token → token ≠ "" →
      (requestFulfilled auth_token config).headers.Authorization = some ("Bearer " ++ token))
    ∧ (auth_token = none →
      (requestFulfilled auth_token config).headers.Authorization = config.headers.Authorization)
    ∧ (requestFulfilled auth_token config).headers.contentType
        = (if config.data.isFormData = true then none else config.headers.contentType)
    ∧ (requestFulfilled auth_token config).headers.accept = config.headers.accept
    ∧ (requestFulfilled auth_token config).method = config.method
    ∧ (requestFulfilled auth_token config).url = config.url
    ∧ (requestFulfilled auth_token config).data = config.data
    ∧ (requestFulfilled auth_token config).timeout = config.timeout
    ∧ (requestFulfilled auth_token config).withCredentials = config.withCredentials := by
  refine ⟨?_, ?_, ?_, ?_, ?_, ?_, ?_, ?_, ?_⟩
  · intro token htoken hne
    subst htoken
    cases hform : config.data.isFormData <;> simp [requestFulfilled, hne, hform]
  · intro hnone
    subst hnone
    cases hform : config.data.isFormData <;> simp [requestFulfilled, hform]
  all_goals
    rcases auth_token with _ | token
    · cases hform : config.data.isFormData <;> simp [requestFulfilled, hform]
    · by_cases hne : token = "" <;> cases hform : config.data.isFormData <;>
        simp [requestFulfilled, hne, hform]

/-- Witness of C21: an upload with a stored token. -/
theorem requestFulfilled_spec_witness :
    (requestFulfilled (some "token-1")
        { method := "post", url := "/students/", data := RequestBody.formData [("photo", "a.png")] }
      ).headers.Authorization = some "Bearer token-1" :=
  (requestFulfilled_spec (some "token-1")
    { method := "post", url := "/students/", data := RequestBody.formData [("photo", "a.png")] }
    ).1 "token-1" rfl (by decide)

theorem firstNonEmpty_cons (value : Option String) (rest : List (Option String))
    (fallback : String) :
    firstNonEmpty (value :: rest) fallback = orDefault value (firstNonEmpty rest fallback) := by
  cases value with
  | none => simp [firstNonEmpty, orDefault]
  | some text => by_cases h : text = "" <;> simp [firstNonEmpty, orDefault, h]

/-- Claim C22: the error the response interceptor rejects with carries as message
the first of the payload field `error`, the payload field `message` and the
message of the transport error that is present and not empty, or
`Something went wrong` when there is none; the other fields of the error are
those of the original. -/
theorem responseRejected_message (browser : Browser) (failure : ApiError) :
    (responseRejected browser failure).2.message
      = some (firstNonEmpty
          [ (failure.response.bind (fun response => response.data)).bind (fun data => data.error),
            (failure.response.bind (fun response => response.data)).bind
              (fun data => data.message),
            failure.message ]
          "Something went wrong")
    ∧ (responseRejected browser failure).2.response = failure.response
    ∧ (responseRejected browser failure).2.code = failure.code := by
  refine ⟨?_, rfl, rfl⟩
  simp only [responseRejected, firstNonEmpty_cons]
  rfl

theorem orDefault_eq_admin (role : Option String)
    (h : orDefault role "USER" = "ADMIN") : role = some "ADMIN" := by
  cases role with
  | none => simp [orDefault] at h
  | some text =>
    by_cases hempty : text = ""
    · simp [orDefault, hempty] at h
    · simp [orDefault, hempty] at h
      rw [h]

theorem admin_entry_guard (entry : RouteEntry) (hmem : entry ∈ AppRoutes)
    (hpath : entry.path = "/admin" ∨ entry.path = "/admin/users"
      ∨ entry.path = "/admin/profile") :
    entry.guard = Guard.privateRoute { allowedRoles := some ["ADMIN"] } := by
  simp only [AppRoutes, List.mem_cons, List.mem_singleton, List.not_mem_nil, or_false] at hmem
  rcases hmem with h | h | h | h | h | h | h | h | h | h | h | h | h | h | h | h | h | h
    | h | h | h | h | h <;> subst h <;> first | rfl | (revert hpath; decide)

/-- Claim C23, as amended: each admin route (`/admin`, `/admin/users`,
`/admin/profile`) is declared with allowedRoles `[ADMIN]`, and for every
session PrivateRoute renders it only if the identity is a system admin or its
role is ADMIN. -/
theorem admin_routes_render_only_admin (session : AuthValue) (entry : RouteEntry)
    (hmem : entry ∈ AppRoutes)
    (hpath : entry.path = "/admin" ∨ entry.path = "/admin/users"
      ∨ entry.path = "/admin/profile") :
    entry.guard = Guard.privateRoute { allowedRoles := some ["ADMIN"] }
    ∧ ((PrivateRoute { allowedRoles := some ["ADMIN"] } session entry.path).decision
          = Decision.render →
        ∃ identity, session.user = some identity
          ∧ (identity.is_system_admin = some true ∨ identity.role = some "ADMIN")) := by
  refine ⟨admin_entry_guard entry hmem hpath, ?_⟩
  obtain ⟨user, loading⟩ := session
  intro hrender
  cases loading with
  | true => simp [PrivateRoute, Element.decision] at hrender
  | false =>
    cases user with
    | none => simp [PrivateRoute, Element.decision] at hrender
    | some identity =>
      refine ⟨identity, rfl, ?_⟩
      rw [privateRoute_decision_present] at hrender
      cases hadmin : truthy identity.is_system_admin with
      | true => exact Or.inl ((truthy_eq_true_iff _).mp hadmin)
      | false =>
        right
        apply orDefault_eq_admin
        by_contra hrole
        have hcontains : (["ADMIN"].contains (orDefault identity.role "USER")) = false := by
          simp [hrole]
        revert hrender
        simp only [hadmin, Option.getD_some, hcontains]
        generalize ((identity.approval_status == some "PENDING_PROFILE"
          || identity.approval_status == some "REJECTED")
          && entry.path != "/dashboard/profile") = c4
        generalize ((identity.approval_status == some "PENDING_APPROVAL"
          || identity.approval_status == some "REJECTED"
          || identity.approval_status == some "PENDING_PROFILE")
          && inRestrictedModule entry.path) = c5
        cases c4 <;> cases c5 <;> simp

/-- Witness of C23: an approved user with role ADMIN on `/admin/users`. -/
theorem admin_routes_render_only_admin_witness :
    ∃ identity : User,
      (some { role := some "ADMIN", approval_status := some "APPROVED",
              is_system_admin := some false } : Option User) = some identity
      ∧ (identity.is_system_admin = some true ∨ identity.role = some "ADMIN") :=
  (admin_routes_render_only_admin
    ⟨some { role := some "ADMIN", approval_status := some "APPROVED",
            is_system_admin := some false }, false⟩
    ⟨ROUTES.ADMIN_USERS, Guard.privateRoute { allowedRoles := some ["ADMIN"] }⟩
    (by decide) (Or.inr (Or.inl rfl))).2 (by decide)

/-- Claim C23, as stated, fails: a system admin whose role is USER is rendered
the `/admin` route. -/
theorem admin_route_system_admin_counterexample :
    (PrivateRoute { allowedRoles := some ["ADMIN"] }
        ⟨some { role := some "USER", approval_status := some "APPROVED",
                is_system_admin := some true }, false⟩ "/admin").decision = Decision.render
    ∧ (some "USER" : Option String) ≠ some "ADMIN" := by
  decide

/-- Claim C24, evaluated on the code: `isPrivateRoute` reads the identifier
`PRIVATE_ROUTES`, which the module does not declare, so it throws a
`ReferenceError` for every path and returns no boolean, whereas `isPublicRoute`
answers whether the path is in `PUBLIC_ROUTES`. -/
theorem isPrivateRoute_throws (path : String) :
    isPrivateRoute path = Except.error "ReferenceError: PRIVATE_ROUTES is not defined"
    ∧ isPublicRoute path = Except.ok (PUBLIC_ROUTES.contains path) := by
  constructor <;> rfl

/-- Claim C26: for a user who is approved or a system admin the sidebar shows
the full list of 20 items in its order; for every other user, no user
included, it shows exactly Overview (`/dashboard`) and My Profile
(`/dashboard/profile`), in that order. -/
theorem navItems_filter (user : Option User) :
    ((user.bind (fun u => u.approval_status) = some "APPROVED"
        ∨ user.bind (fun u => u.is_system_admin) = some true) →
      navItems user = allNavItems)
    ∧ allNavItems.length = 20
    ∧ (¬ (user.bind (fun u => u.approval_status) = some "APPROVED"
        ∨ user.bind (fun u => u.is_system_admin) = some true) →
      navItems user
        = [ { target := "/dashboard", icon := "LayoutGrid", label := "Overview", isEnd := true },
            { target := "/dashboard/profile", icon := "User", label := "My Profile" } ]) := by
  refine ⟨?_, rfl, ?_⟩
  · intro h
    have hall : (user.bind (fun u => u.approval_status) == some "APPROVED"
        || truthy (user.bind (fun u => u.is_system_admin))) = true := by
      rcases h with h | h
      · simp [h]
      · simp [(truthy_eq_true_iff _).mpr h]
    simp only [navItems, hall]
    simp
  · intro h
    rw [not_or] at h
    have hnone : (user.bind (fun u => u.approval_status) == some "APPROVED"
        || truthy (user.bind (fun u => u.is_system_admin))) = false := by
      have h1 : (user.bind (fun u => u.approval_status) == some "APPROVED") = false := by
        simpa using h.1
      have h2 : truthy (user.bind (fun u => u.is_system_admin)) = false := by
        rw [← Bool.not_eq_true, truthy_eq_true_iff]
        exact h.2
      simp [h1, h2]
    simp only [navItems, hnone]
    decide

/-- Witness of C26: a user waiting for approval sees the two items. -/
theorem navItems_filter_witness :
    navItems (some { role := some "TEACHER", approval_status := some "PENDING_APPROVAL",
                     is_system_admin := some false })
      = [ { target := "/dashboard", icon := "LayoutGrid", label := "Overview", isEnd := true },
          { target := "/dashboard/profile", icon := "User", label := "My Profile" } ] :=
  (navItems_filter (some { role := some "TEACHER", approval_status := some "PENDING_APPROVAL",
                           is_system_admin := some false })).2.2 (by decide)

/-- Claim C28: for an approved identity that is not a system admin and every
non-empty allowedRoles, an identity whose role is missing or empty is rendered
when allowedRoles contains `USER` and sent to `/unauthorized` otherwise, and an
identity with a non-empty role is judged by that role. -/
theorem role_check_effective_role (props : PrivateRouteProps) (identity : User)
    (path : String) (hadmin : identity.is_system_admin ≠ some true)
    (hstatus : identity.approval_status = some "APPROVED")
    (hnonempty : props.allowedRoles.getD [] ≠ []) :
    ((identity.role = none ∨ identity.role = some "") →
      (PrivateRoute props ⟨some identity, false⟩ path).decision
        = if "USER" ∈ props.allowedRoles.getD [] then Decision.render
          else Decision.redirect "/unauthorized")
    ∧ (∀ role, identity.role = some role → role ≠ "" →
      (PrivateRoute props ⟨some identity, false⟩ path).decision
        = if role ∈ props.allowedRoles.getD [] then Decision.render
          else Decision.redirect "/unauthorized") := by
  have h3 : truthy identity.is_system_admin = false := by
    rw [← Bool.not_eq_true, truthy_eq_true_iff]
    exact hadmin
  have hlen : 0 < (props.allowedRoles.getD []).length := List.length_pos.mpr hnonempty
  have base : ∀ effective, orDefault identity.role "USER" = effective →
      (PrivateRoute props ⟨some identity, false⟩ path).decision
        = if effective ∈ props.allowedRoles.getD [] then Decision.render
          else Decision.redirect "/unauthorized" := by
    intro effective heff
    by_cases hmem : effective ∈ props.allowedRoles.getD [] <;>
      simp [PrivateRoute, Element.decision, h3, hstatus, hlen, heff, hmem]
  constructor
  · intro hrole
    apply base
    rcases hrole with h | h <;> simp [orDefault, h]
  · intro role hrole hne
    apply base
    simp [orDefault, hrole, hne]

/-- Witness of C28: an approved identity without a role on the dashboard route. -/
theorem role_check_effective_role_witness :
    (PrivateRoute { allowedRoles := some ["USER", "STAFF", "ADMIN", "TEACHER", "ACCOUNTANT"] }
        ⟨some { approval_status := some "APPROVED", is_system_admin := some false }, false⟩
        "/dashboard").decision
      = (if "USER" ∈ (some ["USER", "STAFF", "ADMIN", "TEACHER", "ACCOUNTANT"]).getD []
          then Decision.render else Decision.redirect "/unauthorized") :=
  (role_check_effective_role
    { allowedRoles := some ["USER", "STAFF", "ADMIN", "TEACHER", "ACCOUNTANT"] }
    { approval_status := some "APPROVED", is_system_admin := some false }
    "/dashboard" (by decide) rfl (by decide)).1 (Or.inl rfl)

theorem dashboard_redirect_restricted (props : PrivateRouteProps) (identity : User)
    (loading : Bool) (path : String)
    (h : (PrivateRoute props ⟨some identity, loading⟩ path).decision
      = Decision.redirect "/dashboard") :
    inRestrictedModule path = true := by
  cases loading with
  | true => simp [PrivateRoute, Element.decision] at h
  | false =>
    rw [privateRoute_decision_present] at h
    revert h
    generalize truthy identity.is_system_admin = c3
    generalize ((identity.approval_status == some "PENDING_PROFILE"
      || identity.approval_status == some "REJECTED") && path != "/dashboard/profile") = c4
    generalize (identity.approval_status == some "PENDING_APPROVAL"
      || identity.approval_status == some "REJECTED"
      || identity.approval_status == some "PENDING_PROFILE") = c5
    generalize (decide ((props.allowedRoles.getD []).length > 0)
      && !(props.allowedRoles.getD []).contains (orDefault identity.role "USER")) = c6
    cases hr : inRestrictedModule path
    case true => intro _; rfl
    case false => cases c3 <;> cases c4 <;> cases c5 <;> cases c6 <;> simp

/-- Claim C29: for every user who is neither approved nor a system admin, each
item the sidebar shows points to a path that starts with none of the
restricted-module paths, so PrivateRoute never answers it with the redirect to
the dashboard; and each sidebar item whose path starts with a restricted-module
path is hidden from that user. -/
theorem sidebar_agrees_with_gate (user : Option User)
    (hstatus : user.bind (fun u => u.approval_status) ≠ some "APPROVED")
    (hadmin : user.bind (fun u => u.is_system_admin) ≠ some true) :
    (∀ item ∈ navItems user, inRestrictedModule item.target = false
      ∧ ∀ identity props loading, user = some identity →
          (PrivateRoute props ⟨some identity, loading⟩ item.target).decision
            ≠ Decision.redirect "/dashboard")
    ∧ (∀ item ∈ allNavItems, inRestrictedModule item.target = true → item ∉ navItems user) := by
  have hitems : navItems user
      = [ { target := "/dashboard", icon := "LayoutGrid", label := "Overview", isEnd := true },
          { target := "/dashboard/profile", icon := "User", label := "My Profile" } ] := by
    have hnone : (user.bind (fun u => u.approval_status) == some "APPROVED"
        || truthy (user.bind (fun u => u.is_system_admin))) = false := by
      have h1 : (user.bind (fun u => u.approval_status) == some "APPROVED") = false := by
        simpa using hstatus
      have h2 : truthy (user.bind (fun u => u.is_system_admin)) = false := by
        rw [← Bool.not_eq_true, truthy_eq_true_iff]
        exact hadmin
      simp [h1, h2]
    simp only [navItems, hnone]
    decide
  have hshown : ∀ item ∈ navItems user, inRestrictedModule item.target = false := by
    rw [hitems]
    decide
  refine ⟨?_, ?_⟩
  · intro item hmem
    refine ⟨hshown item hmem, ?_⟩
    intro identity props loading _ hredirect
    have := dashboard_redirect_restricted props identity loading item.target hredirect
    rw [hshown item hmem] at this
    exact Bool.noConfusion this
  · intro item _ hrestricted hmem
    rw [hshown item hmem] at hrestricted
    exact Bool.noConfusion hrestricted

/-- Witness of C29: a user waiting for approval and the Overview item. -/
theorem sidebar_agrees_with_gate_witness :
    inRestrictedModule "/dashboard" = false :=
  ((sidebar_agrees_with_gate
      (some { role := some "TEACHER", approval_status := some "PENDING_APPROVAL",
              is_system_admin := some false })
      (by decide) (by decide)).1
    { target := "/dashboard", icon := "LayoutGrid", label := "Overview", isEnd := true }
    (by decide)).1

theorem dispatch_step (page : AdminLoginPage) (event : AdminLoginEvent)
    (h : page.step = 1 ∨ page.step = 2) :
    (page.dispatch event).step = 1 ∨ (page.dispatch event).step = 2 := by
  rcases h with h | h
  · cases event with
    | submitCredentials outcome =>
      cases outcome <;>
        simp [AdminLoginPage.dispatch, AdminLoginPage.handleLoginSubmit, h]
    | submitOTP outcome => simp [AdminLoginPage.dispatch, h]
    | back => simp [AdminLoginPage.dispatch, h]
  · cases event with
    | submitCredentials outcome => simp [AdminLoginPage.dispatch, h]
    | submitOTP outcome =>
      cases outcome <;>
        simp [AdminLoginPage.dispatch, AdminLoginPage.handleOTPSubmit, h]
    | back => simp [AdminLoginPage.dispatch, h]

theorem adminRun_step (events : List AdminLoginEvent) (page : AdminLoginPage)
    (h : page.step = 1 ∨ page.step = 2) :
    (page.run events).step = 1 ∨ (page.run events).step = 2 := by
  induction events generalizing page with
  | nil => exact h
  | cons event rest ih => exact ih (page.dispatch event) (dispatch_step page event h)

theorem dispatch_enters_step_two (page : AdminLoginPage) (event : AdminLoginEvent)
    (hone : page.step = 1) (htwo : (page.dispatch event).step = 2) :
    event.isCredentialsSuccess = true := by
  cases event with
  | submitCredentials outcome =>
    cases outcome with
    | ok response => rfl
    | error thrown =>
      simp [AdminLoginPage.dispatch, AdminLoginPage.handleLoginSubmit, hone] at htwo
  | submitOTP outcome => simp [AdminLoginPage.dispatch, hone] at htwo
  | back => simp [AdminLoginPage.dispatch, hone] at htwo

theorem dispatch_sets_session (page : AdminLoginPage) (event : AdminLoginEvent)
    (hchange : (page.dispatch event).session ≠ page.session) :
    page.step ≠ 1 ∧ ∃ response, event = AdminLoginEvent.submitOTP (Except.ok response)
      ∧ (page.dispatch event).session = (login response.user page.session).state := by
  by_cases hone : page.step = 1
  · exfalso
    apply hchange
    cases event with
    | submitCredentials outcome =>
      cases outcome <;>
        simp [AdminLoginPage.dispatch, AdminLoginPage.handleLoginSubmit, hone]
    | submitOTP outcome => simp [AdminLoginPage.dispatch, hone]
    | back => simp [AdminLoginPage.dispatch, hone]
  · refine ⟨hone, ?_⟩
    cases event with
    | submitCredentials outcome =>
      exact absurd (by simp [AdminLoginPage.dispatch, hone]) hchange
    | submitOTP outcome =>
      cases outcome with
      | ok response =>
        exact ⟨response, rfl, by simp [AdminLoginPage.dispatch, AdminLoginPage.handleOTPSubmit, hone]⟩
      | error thrown =>
        exact absurd
          (by simp [AdminLoginPage.dispatch, AdminLoginPage.handleOTPSubmit, hone]) hchange
    | back => exact absurd (by simp [AdminLoginPage.dispatch, hone]) hchange

theorem dispatch_failure (page : AdminLoginPage) (thrown : ApiError) :
    (page.dispatch (AdminLoginEvent.submitCredentials (Except.error thrown))).step = page.step
    ∧ (page.dispatch (AdminLoginEvent.submitCredentials (Except.error thrown))).session
        = page.session
    ∧ (page.dispatch (AdminLoginEvent.submitOTP (Except.error thrown))).step = page.step
    ∧ (page.dispatch (AdminLoginEvent.submitOTP (Except.error thrown))).session
        = page.session := by
  by_cases hone : page.step = 1 <;>
    simp [AdminLoginPage.dispatch, AdminLoginPage.handleLoginSubmit,
      AdminLoginPage.handleOTPSubmit, hone]

theorem adminRun_without_credentials (events : List AdminLoginEvent) (page : AdminLoginPage)
    (hstep : page.step = 1) (huser : page.session.user = none)
    (hnone : ∀ event ∈ events, event.isCredentialsSuccess = false) :
    (page.run events).step = 1 ∧ (page.run events).session.user = none := by
  induction events generalizing page with
  | nil => exact ⟨hstep, huser⟩
  | cons event rest ih =>
    have hrest : ∀ later ∈ rest, later.isCredentialsSuccess = false :=
      fun later hmem => hnone later (List.mem_cons_of_mem event hmem)
    have hevent := hnone event (List.mem_cons_self _ _)
    have hsame : (page.dispatch event).step = 1
        ∧ (page.dispatch event).session.user = none := by
      cases event with
      | submitCredentials outcome =>
        cases outcome with
        | ok response => simp [AdminLoginEvent.isCredentialsSuccess] at hevent
        | error thrown =>
          simp [AdminLoginPage.dispatch, AdminLoginPage.handleLoginSubmit, hstep, huser]
      | submitOTP outcome => simp [AdminLoginPage.dispatch, hstep, huser]
      | back => simp [AdminLoginPage.dispatch, hstep, huser]
    exact ih (page.dispatch event) hsame.1 hsame.2 hrest

theorem adminRun_without_otp (events : List AdminLoginEvent) (page : AdminLoginPage)
    (huser : page.session.user = none)
    (hnone : ∀ event ∈ events, event.isOTPSuccess = false) :
    (page.run events).session.user = none := by
  induction events generalizing page with
  | nil => exact huser
  | cons event rest ih =>
    have hrest : ∀ later ∈ rest, later.isOTPSuccess = false :=
      fun later hmem => hnone later (List.mem_cons_of_mem event hmem)
    have hevent := hnone event (List.mem_cons_self _ _)
    have hsame : (page.dispatch event).session.user = none := by
      by_cases hone : page.step = 1
      · cases event with
        | submitCredentials outcome =>
          cases outcome <;>
            simp [AdminLoginPage.dispatch, AdminLoginPage.handleLoginSubmit, hone, huser]
        | submitOTP outcome => simp [AdminLoginPage.dispatch, hone, huser]
        | back => simp [AdminLoginPage.dispatch, hone, huser]
      · cases event with
        | submitCredentials outcome => simp [AdminLoginPage.dispatch, hone, huser]
        | submitOTP outcome =>
          cases outcome with
          | ok response => simp [AdminLoginEvent.isOTPSuccess] at hevent
          | error thrown =>
            simp [AdminLoginPage.dispatch, AdminLoginPage.handleOTPSubmit, hone, huser]
        | back => simp [AdminLoginPage.dispatch, hone, huser]
    exact ih (page.dispatch event) hsame hrest

/-- Claim C25: on the system-admin login page, started at step 1 over a session
without identity, after every sequence of credential submissions, OTP
submissions and Back actions with arbitrary outcomes: the step is 1 or 2; a
further event leads from step 1 to step 2 only if it is a successful credential
submission; it changes the session only if it is a successful OTP submission
made in step 2, and then the session is the one `login` leaves for the user of
the answer; a failed credential or OTP submission changes neither the step nor
the session; without a successful credential submission the step is still 1,
and without a successful OTP submission the identity is still absent. -/
theorem admin_login_two_step (loading : Bool) (auth_token : Option String)
    (events : List AdminLoginEvent) (page : AdminLoginPage)
    (hreach : page = (AdminLoginPage.initial loading auth_token).run events) :
    (page.step = 1 ∨ page.step = 2)
    ∧ (∀ event, page.step = 1 → (page.dispatch event).step = 2 →
        event.isCredentialsSuccess = true)
    ∧ (∀ event, (page.dispatch event).session ≠ page.session →
        page.step = 2 ∧ ∃ response, event = AdminLoginEvent.submitOTP (Except.ok response)
          ∧ (page.dispatch event).session = (login response.user page.session).state)
    ∧ (∀ thrown,
        (page.dispatch (AdminLoginEvent.submitCredentials (Except.error thrown))).step
            = page.step
        ∧ (page.dispatch (AdminLoginEvent.submitCredentials (Except.error thrown))).session
            = page.session
        ∧ (page.dispatch (AdminLoginEvent.submitOTP (Except.error thrown))).step = page.step
        ∧ (page.dispatch (AdminLoginEvent.submitOTP (Except.error thrown))).session
            = page.session)
    ∧ ((∀ event ∈ events, event.isCredentialsSuccess = false) →
        page.step = 1 ∧ page.session.user = none)
    ∧ ((∀ event ∈ events, event.isOTPSuccess = false) → page.session.user = none) := by
  have hstep : page.step = 1 ∨ page.step = 2 := by
    rw [hreach]
    exact adminRun_step events _ (Or.inl rfl)
  refine ⟨hstep, ?_, ?_, dispatch_failure page, ?_, ?_⟩
  · intro event hone htwo
    exact dispatch_enters_step_two page event hone htwo
  · intro event hchange
    obtain ⟨hne, hevent⟩ := dispatch_sets_session page event hchange
    refine ⟨?_, hevent⟩
    rcases hstep with h | h
    · exact absurd h hne
    · exact h
  · intro hnone
    rw [hreach]
    exact adminRun_without_credentials events _ rfl rfl hnone
  · intro hnone
    rw [hreach]
    exact adminRun_without_otp events _ rfl hnone

/-- Witness of C25: after accepted credentials the page is at step 2, and a
rejected OTP leaves it there with the identity absent. -/
theorem admin_login_two_step_witness :
    (((AdminLoginPage.initial false none).run
        [AdminLoginEvent.submitCredentials (Except.ok { message := some "OTP sent" })]).dispatch
      (AdminLoginEvent.submitOTP (Except.error { message := some "Invalid OTP" }))).step
      = ((AdminLoginPage.initial false none).run
        [AdminLoginEvent.submitCredentials (Except.ok { message := some "OTP sent" })]).step :=
  ((admin_login_two_step false none
    [AdminLoginEvent.submitCredentials (Except.ok { message := some "OTP sent" })]
    ((AdminLoginPage.initial false none).run
      [AdminLoginEvent.submitCredentials (Except.ok { message := some "OTP sent" })])
    rfl).2.2.2.1 { message := some "Invalid OTP" }).2.2.1

theorem orDefault_ne_empty (value : Option String) (fallback : String)
    (h : fallback ≠ "") : orDefault value fallback ≠ "" := by
  cases value with
  | none => simpa [orDefault] using h
  | some text =>
    by_cases hempty : text = ""
    · simpa [orDefault, hempty] using h
    · simp [orDefault, hempty]

/-- Claim C30, as amended: when password and confirmPassword differ,
handleSignupSubmit sets the error to `Passwords do not match.`, makes no
register call and leaves the step as it was; it moves the step from SIGNUP to
VERIFY only when the passwords are equal and the register call it made
succeeds; and a failed register call leaves the step as it was (SIGNUP from the
sign-up form, VERIFY from the Resend button of the verify form) with a
non-empty error. -/
theorem handleSignupSubmit_spec (outcome : Except ApiError Unit) (page : SignUpPage) :
    (page.formData.password ≠ page.formData.confirmPassword →
      (handleSignupSubmit outcome page).page.error = "Passwords do not match."
      ∧ (handleSignupSubmit outcome page).registerCalls = []
      ∧ (handleSignupSubmit outcome page).page.step = page.step)
    ∧ (page.step = STEPS.SIGNUP → (handleSignupSubmit outcome page).page.step = STEPS.VERIFY →
      page.formData.password = page.formData.confirmPassword
      ∧ outcome = Except.ok ()
      ∧ (handleSignupSubmit outcome page).registerCalls
          = [{ email := page.formData.email, password := page.formData.password,
               role := page.formData.role }])
    ∧ (∀ thrown, outcome = Except.error thrown →
      page.formData.password = page.formData.confirmPassword →
      (handleSignupSubmit outcome page).page.step = page.step
      ∧ (handleSignupSubmit outcome page).page.error ≠ "") := by
  refine ⟨?_, ?_, ?_⟩
  · intro hdiff
    simp [handleSignupSubmit, hdiff]
  · intro hsignup hverify
    by_cases hsame : page.formData.password = page.formData.confirmPassword
    · cases outcome with
      | ok value => exact ⟨hsame, rfl, by simp [handleSignupSubmit, hsame]⟩
      | error thrown =>
        simp [handleSignupSubmit, hsame, hsignup] at hverify
    · simp [handleSignupSubmit, hsame, hsignup] at hverify
  · intro thrown hfail hsame
    subst hfail
    refine ⟨by simp [handleSignupSubmit, hsame], ?_⟩
    simp only [handleSignupSubmit, hsame, ne_eq, not_true_eq_false, if_false]
    exact orDefault_ne_empty _ _ (orDefault_ne_empty _ _ (by decide))

/-- Witness of C30: a mismatch on the sign-up form. -/
theorem handleSignupSubmit_spec_witness :
    (handleSignupSubmit (Except.ok ())
        { formData := { email := "kim@school.test", password := "secret-1",
                        confirmPassword := "secret-2", role := "TEACHER" } }).page.error
      = "Passwords do not match."
    ∧ (handleSignupSubmit (Except.ok ())
        { formData := { email := "kim@school.test", password := "secret-1",
                        confirmPassword := "secret-2", role := "TEACHER" } }).registerCalls = []
    ∧ (handleSignupSubmit (Except.ok ())
        { formData := { email := "kim@school.test", password := "secret-1",
                        confirmPassword := "secret-2", role := "TEACHER" } }).page.step
      = STEPS.SIGNUP :=
  (handleSignupSubmit_spec (Except.ok ())
    { formData := { email := "kim@school.test", password := "secret-1",
                    confirmPassword := "secret-2", role := "TEACHER" } }).1 (by decide)

/-- Claim C30, as stated, fails: after a successful sign-up the page is at
VERIFY; the Resend button calls handleSignupSubmit again, and when that
register call fails the step is still VERIFY, not SIGNUP. -/
theorem resend_failure_counterexample :
    (handleSignupSubmit (Except.ok ())
        { formData := { email := "kim@school.test", password := "secret-1",
                        confirmPassword := "secret-1", role := "TEACHER" } }).page.step
      = STEPS.VERIFY
    ∧ (handleSignupSubmit (Except.error { message := some "Request failed" })
        (handleSignupSubmit (Except.ok ())
          { formData := { email := "kim@school.test", password := "secret-1",
                          confirmPassword := "secret-1", role := "TEACHER" } }).page).page.step
      = STEPS.VERIFY
    ∧ (handleSignupSubmit (Except.error { message := some "Request failed" })
        (handleSignupSubmit (Except.ok ())
          { formData := { email := "kim@school.test", password := "secret-1",
                          confirmPassword := "secret-1", role := "TEACHER" } }).page
      ).registerCalls.length = 1 := by
  decide

theorem matchRoute_of_mem : ∀ entry ∈ AppRoutes, matchRoute entry.path = entry := by
  decide

theorem table_redirectTo_default : ∀ entry ∈ AppRoutes,
    (match entry.guard with
      | Guard.publicRoute props => props.redirectTo.isNone
      | Guard.privateRoute props => props.redirectTo.isNone
      | Guard.unguarded => true) = true := by
  decide

theorem redirectsToRender_render (session : AuthValue) (path : String) (limit : Nat)
    (h : gate session path = Decision.render) :
    redirectsToRender session path limit = some 0 := by
  cases limit <;> simp [redirectsToRender, h]

theorem redirectsToRender_redirect (session : AuthValue) (path target : String)
    (remaining : Nat) (h : gate session path = Decision.redirect target) :
    redirectsToRender session path (remaining + 1)
      = (redirectsToRender session target remaining).map (fun count => count + 1) := by
  simp [redirectsToRender, h]

theorem gate_unauthorized (session : AuthValue) :
    gate session "/unauthorized" = Decision.render := by
  have hroute : matchRoute "/unauthorized" = ⟨"/unauthorized", Guard.unguarded⟩ := by decide
  simp [gate, hroute]

theorem gate_login_absent : gate ⟨none, false⟩ "/login" = Decision.render := by
  decide

theorem gate_profile (identity : User) :
    gate ⟨some identity, false⟩ "/dashboard/profile" = Decision.render := by
  have hroute : matchRoute "/dashboard/profile"
      = ⟨"/dashboard/profile", Guard.privateRoute {}⟩ := by decide
  have hpath : inRestrictedModule "/dashboard/profile" = false := by decide
  simp only [gate, hroute, privateRoute_decision_present, hpath]
  cases truthy identity.is_system_admin <;> simp

theorem gate_admin (identity : User) (hadmin : truthy identity.is_system_admin = true) :
    gate ⟨some identity, false⟩ "/admin" = Decision.render := by
  have hroute : matchRoute "/admin"
      = ⟨"/admin", Guard.privateRoute { allowedRoles := some ["ADMIN"] }⟩ := by decide
  simp [gate, hroute, privateRoute_decision_present, hadmin]

theorem privateRoute_present_cases (props : PrivateRouteProps) (identity : User)
    (path : String) :
    (PrivateRoute props ⟨some identity, false⟩ path).decision = Decision.render
    ∨ (PrivateRoute props ⟨some identity, false⟩ path).decision
        = Decision.redirect "/dashboard/profile"
    ∨ ((PrivateRoute props ⟨some identity, false⟩ path).decision
        = Decision.redirect "/dashboard" ∧ inRestrictedModule path = true)
    ∨ (PrivateRoute props ⟨some identity, false⟩ path).decision
        = Decision.redirect "/unauthorized" := by
  rw [privateRoute_decision_present]
  generalize truthy identity.is_system_admin = c3
  generalize ((identity.approval_status == some "PENDING_PROFILE"
    || identity.approval_status == some "REJECTED") && path != "/dashboard/profile") = c4
  generalize (identity.approval_status == some "PENDING_APPROVAL"
    || identity.approval_status == some "REJECTED"
    || identity.approval_status == some "PENDING_PROFILE") = c5
  generalize (decide ((props.allowedRoles.getD []).length > 0)
    && !(props.allowedRoles.getD []).contains (orDefault identity.role "USER")) = c6
  cases c3 <;> cases c4 <;> cases c5 <;> cases c6 <;>
    cases inRestrictedModule path <;> simp

theorem gate_dashboard (identity : User) :
    gate ⟨some identity, false⟩ "/dashboard" = Decision.render
    ∨ gate ⟨some identity, false⟩ "/dashboard" = Decision.redirect "/dashboard/profile"
    ∨ gate ⟨some identity, false⟩ "/dashboard" = Decision.redirect "/unauthorized" := by
  have hroute : matchRoute "/dashboard"
      = ⟨"/dashboard", Guard.privateRoute
          { allowedRoles := some ["USER", "STAFF", "ADMIN", "TEACHER", "ACCOUNTANT"] }⟩ := by
    decide
  have hpath : inRestrictedModule "/dashboard" = false := by decide
  simp only [gate, hroute]
  rcases privateRoute_present_cases
      { allowedRoles := some ["USER", "STAFF", "ADMIN", "TEACHER", "ACCOUNTANT"] }
      identity "/dashboard" with h | h | h | h
  · exact Or.inl h
  · exact Or.inr (Or.inl h)
  · rw [hpath] at h
    exact absurd h.2 (by decide)
  · exact Or.inr (Or.inr h)

theorem redirects_from_dashboard (identity : User) :
    ∃ count, redirectsToRender ⟨some identity, false⟩ "/dashboard" 1 = some count
      ∧ count ≤ 1 := by
  rcases gate_dashboard identity with h | h | h
  · exact ⟨0, redirectsToRender_render _ _ _ h, by decide⟩
  · refine ⟨1, ?_, le_refl _⟩
    rw [redirectsToRender_redirect _ _ _ _ h,
      redirectsToRender_render _ _ _ (gate_profile identity)]
    rfl
  · refine ⟨1, ?_, le_refl _⟩
    rw [redirectsToRender_redirect _ _ _ _ h,
      redirectsToRender_render _ _ _ (gate_unauthorized _)]
    rfl

/-- Claim C27: for every session with loading false and every path registered
in the routing table, applying the guard of the current path and following
each redirect to the route of its target reaches a rendered screen after at
most two redirects. -/
theorem no_redirect_loop (session : AuthValue) (hloading : session.loading = false)
    (entry : RouteEntry) (hmem : entry ∈ AppRoutes) :
    ∃ count, redirectsToRender session entry.path 2 = some count ∧ count ≤ 2 := by
  obtain ⟨user, loading⟩ := session
  simp only at hloading
  subst hloading
  have hroute := matchRoute_of_mem entry hmem
  have hdefault := table_redirectTo_default entry hmem
  cases hguard : entry.guard with
  | unguarded =>
    have hgate : gate ⟨user, false⟩ entry.path = Decision.render := by
      simp only [gate, hroute, hguard]
    exact ⟨0, redirectsToRender_render _ _ _ hgate, by decide⟩
  | publicRoute props =>
    rw [hguard] at hdefault
    have hredirect : props.redirectTo = none := by simpa using hdefault
    have hgate : gate ⟨user, false⟩ entry.path = (PublicRoute props ⟨user, false⟩).decision := by
      simp only [gate, hroute, hguard]
    cases user with
    | none =>
      have hrender : gate ⟨none, false⟩ entry.path = Decision.render := by
        rw [hgate]
        cases hr : props.restricted.getD false <;> simp [PublicRoute, Element.decision, hr]
      exact ⟨0, redirectsToRender_render _ _ _ hrender, by decide⟩
    | some identity =>
      cases hr : props.restricted.getD false with
      | false =>
        have hrender : gate ⟨some identity, false⟩ entry.path = Decision.render := by
          rw [hgate]
          simp [PublicRoute, Element.decision, hr]
        exact ⟨0, redirectsToRender_render _ _ _ hrender, by decide⟩
      | true =>
        cases hadmin : truthy identity.is_system_admin with
        | true =>
          have hto : gate ⟨some identity, false⟩ entry.path = Decision.redirect "/admin" := by
            rw [hgate]
            simp [PublicRoute, Element.decision, hr, hadmin, ROUTES.ADMIN]
          refine ⟨1, ?_, by decide⟩
          rw [redirectsToRender_redirect _ _ _ _ hto,
            redirectsToRender_render _ _ _ (gate_admin identity hadmin)]
          rfl
        | false =>
          have hto : gate ⟨some identity, false⟩ entry.path
              = Decision.redirect "/dashboard" := by
            rw [hgate]
            simp [PublicRoute, Element.decision, hr, hadmin, hredirect, ROUTES.DASHBOARD]
          obtain ⟨count, hcount, hle⟩ := redirects_from_dashboard identity
          refine ⟨count + 1, ?_, Nat.succ_le_succ hle⟩
          rw [redirectsToRender_redirect _ _ _ _ hto, hcount]
          rfl
  | privateRoute props =>
    rw [hguard] at hdefault
    have hredirect : props.redirectTo = none := by simpa using hdefault
    have hgate : gate ⟨user, false⟩ entry.path
        = (PrivateRoute props ⟨user, false⟩ entry.path).decision := by
      simp only [gate, hroute, hguard]
    cases user with
    | none =>
      have hto : gate ⟨none, false⟩ entry.path = Decision.redirect "/login" := by
        rw [hgate]
        simp [PrivateRoute, Element.decision, hredirect, ROUTES.LOGIN]
      refine ⟨1, ?_, by decide⟩
      rw [redirectsToRender_redirect _ _ _ _ hto,
        redirectsToRender_render _ _ _ gate_login_absent]
      rfl
    | some identity =>
      rcases privateRoute_present_cases props identity entry.path with h | h | h | h
      · exact ⟨0, redirectsToRender_render _ _ _ (hgate.trans h), by decide⟩
      · refine ⟨1, ?_, by decide⟩
        rw [redirectsToRender_redirect _ _ _ _ (hgate.trans h),
          redirectsToRender_render _ _ _ (gate_profile identity)]
        rfl
      · obtain ⟨count, hcount, hle⟩ := redirects_from_dashboard identity
        refine ⟨count + 1, ?_, Nat.succ_le_succ hle⟩
        rw [redirectsToRender_redirect _ _ _ _ (hgate.trans h.1), hcount]
        rfl
      · refine ⟨1, ?_, by decide⟩
        rw [redirectsToRender_redirect _ _ _ _ (hgate.trans h),
          redirectsToRender_render _ _ _ (gate_unauthorized _)]
        rfl

/-- Witness of C27: a teacher waiting for approval who opens the students route
is sent to the dashboard and rendered there, after one redirect. -/
theorem no_redirect_loop_witness :
    ∃ count, redirectsToRender
        ⟨some { role := some "TEACHER", approval_status := some "PENDING_APPROVAL",
                is_system_admin := some false }, false⟩ "/dashboard/students" 2 = some count
      ∧ count ≤ 2 :=
  no_redirect_loop
    ⟨some { role := some "TEACHER", approval_status := some "PENDING_APPROVAL",
            is_system_admin := some false }, false⟩ rfl
    ⟨ROUTES.USER_STUDENTS, Guard.privateRoute { allowedRoles := some ["ADMIN", "STAFF", "TEACHER"] }⟩
    (by decide)

end SMS
